import Mathlib

/-!
Shallow embedding of the pydsge core module (`pydsge/core.py`): the system
compiler `get_sys` and the parameter store `get_par` / `set_par`.

Numeric values are exact rationals.  Vectors are `List ℚ`, matrices are
`List (List ℚ)` in row-major order, mirroring the numpy arrays of the source.
External numerical collaborators that are not part of this repository
(numpy `svd` / `inv`, grgrlib `re_bk` / `eig`, the OBC preprocessing engine,
and the samplers) are modelled as oracle inputs: `get_sys` is a pure function
of the model state, its arguments and the oracle record.

Line references in comments refer to `src/pydsge/core.py`.
-/

-- Rational arithmetic is irreducible by default, which blocks `decide` on
-- concrete model evaluations; the kernel is unaffected by reducibility.
set_option allowUnsafeReducibility true
attribute [local semireducible] Rat.add Rat.mul Rat.sub Rat.inv Rat.ofScientific

/-- Row vector of rationals (a 1-D numpy array). -/
abbrev RVec := List ℚ

/-- Matrix of rationals in row-major order (a 2-D numpy array). -/
abbrev RMat := List (List ℚ)

/-- Number of rows of a matrix. -/
def rowsOf (A : RMat) : Nat := A.length

/-- Number of columns of a matrix (length of its first row, 0 if empty). -/
def colsOf (A : RMat) : Nat := (A.headD []).length

/-- Shape of a matrix as a pair, mirroring numpy `.shape`. -/
def shapeOf (A : RMat) : Nat × Nat := (rowsOf A, colsOf A)

/-- Zero matrix of the given shape (`np.zeros`). -/
def zerosM (m n : Nat) : RMat := List.replicate m (List.replicate n 0)

/-- Identity matrix (`np.eye`). -/
def eyeM (n : Nat) : RMat :=
  (List.range n).map (fun i => (List.range n).map (fun j => if i = j then (1 : ℚ) else 0))

/-- Transpose of a matrix (`A.T`); rows are read off column-wise with 0 padding. -/
def transposeM (A : RMat) : RMat :=
  (List.range (colsOf A)).map (fun j => A.map (fun row => row.getD j 0))

/-- Dot product of two vectors (zip semantics). -/
def dotV (u v : RVec) : ℚ := (List.zipWith (· * ·) u v).sum

/-- Elementwise sum of two vectors. -/
def addV (u v : RVec) : RVec := List.zipWith (· + ·) u v

/-- Scalar multiple of a vector. -/
def scaleV (c : ℚ) (v : RVec) : RVec := v.map (c * ·)

/-- Negation of a matrix (numpy unary minus). -/
def negM (A : RMat) : RMat := A.map (fun r => r.map (fun x => -x))

/-- Elementwise sum of two matrices. -/
def addM (A B : RMat) : RMat := List.zipWith addV A B

/-- Matrix-vector product (`A @ v`). -/
def matvec (A : RMat) (v : RVec) : RVec := A.map (fun r => dotV r v)

/-- Matrix-matrix product (`A @ B`). -/
def matmul (A B : RMat) : RMat :=
  let Bt := transposeM B
  A.map (fun r => Bt.map (fun c => dotV r c))

/-- Outer product of two vectors (`np.outer`). -/
def outerM (u v : RVec) : RMat := u.map (fun x => v.map (fun y => x * y))

/-- Horizontal stacking of two matrices with equal row counts (`np.hstack`). -/
def hstackM (A B : RMat) : RMat := List.zipWith (· ++ ·) A B

/-- Vertical stacking of two matrices (`np.vstack` / block rows). -/
def vstackM (A B : RMat) : RMat := A ++ B

/-- Two-by-two block matrix (`np.block [[A, B], [C, D]]`). -/
def blockM (A B C D : RMat) : RMat := vstackM (hstackM A B) (hstackM C D)

/-- Deletion of column `j` (`np.delete(A, j, 1)`). -/
def deleteColM (j : Nat) (A : RMat) : RMat := A.map (fun r => r.eraseIdx j)

/-- Column `j` of a matrix as a vector (`A[:, j]`). -/
def colM (A : RMat) (j : Nat) : RVec := A.map (fun r => r.getD j 0)

/-- Boolean selection of the entries of a list (`v[mask]`), zip semantics. -/
def maskSelV {α : Type} (mask : List Bool) (v : List α) : List α :=
  ((List.zip mask v).filter (fun p => p.1)).map (fun p => p.2)

/-- Boolean selection of the rows of a matrix (`A[mask]`). -/
def maskSelRows (mask : List Bool) (A : RMat) : RMat := maskSelV mask A

/-- Boolean selection of the columns of a matrix (`A[:, mask]`). -/
def maskSelCols (mask : List Bool) (A : RMat) : RMat := A.map (maskSelV mask)

/-- Row assignment under a boolean mask (`A[mask] = B[mask]`): row `i` of the
result is row `i` of `B` whenever `mask[i]` is true, and row `i` of `A`
otherwise (zip semantics). -/
def maskAssignRows (mask : List Bool) (A B : RMat) : RMat :=
  (List.zip mask (List.zip A B)).map (fun p => if p.1 then p.2.2 else p.2.1)

/-- Elementwise negation of a boolean mask (`~mask`). -/
def notMask (mask : List Bool) : List Bool := mask.map (fun b => !b)

/-- Elementwise conjunction of two boolean masks (numpy `&`), zip semantics. -/
def andMask (a b : List Bool) : List Bool := List.zipWith (fun x y => x && y) a b

/-- Elementwise disjunction of two boolean masks (numpy `|`), zip semantics. -/
def orMask (a b : List Bool) : List Bool := List.zipWith (fun x y => x || y) a b

/-- Number of true entries of a boolean mask (`sum(mask)`). -/
def countTrue (mask : List Bool) : Nat := (mask.filter id).length

/-- Default zero tolerance of grgrlib `fast0` (1e-8). -/
def tol0 : ℚ := 1 / 100000000

/-- Absolute value of a rational (`np.abs`), written so that it evaluates
by kernel reduction. -/
def qabs (x : ℚ) : ℚ := if x < 0 then -x else x

/-- The computable absolute value agrees with the mathematical one. -/
theorem qabs_eq_abs (x : ℚ) : qabs x = |x| := by
  unfold qabs
  split
  · rw [abs_of_neg (by assumption)]
  · rw [abs_of_nonneg (by linarith [not_lt.mp (by assumption)])]

/-- Whether every entry of a vector is numerically zero: grgrlib
`fast0(v, 2)` = `(abs(v) < tol).all()`; true on the empty vector. -/
def fast0All (tol : ℚ) (v : RVec) : Bool := v.all (fun x => qabs x < tol)

/-- Elementwise numerical-zero test: grgrlib `fast0(v)` = `abs(v) < tol`. -/
def fast0E (tol : ℚ) (v : RVec) : List Bool := v.map (fun x => qabs x < tol)

/-- Per-column numerical-zero test: grgrlib `fast0(A, 0)` =
`(abs(A) < tol).all(axis=0)`. -/
def fast0Cols (tol : ℚ) (A : RMat) : List Bool := (transposeM A).map (fast0All tol)

/-- Sequential indexed assignment `v[idxs] = vals` (numpy fancy-index
assignment with an index list), zip semantics. -/
def setIdxs (v : RVec) (idxs : List Nat) (vals : RVec) : RVec :=
  (List.zip idxs vals).foldl (fun acc p => acc.set p.1 p.2) v

/-- Indexed selection `v[idxs]` (numpy fancy indexing with an index list). -/
def selIdxs (v : RVec) (idxs : List Nat) : RVec := idxs.map (fun i => v.getD i 0)

/-- Column indices of the nonzero entries of a matrix in row-major order
(`np.where(A)[1]`). -/
def whereCols (A : RMat) : List Nat :=
  (A.map (fun r => (List.range r.length).filter (fun j => r.getD j 0 ≠ 0))).flatten

/-- Python negative-slice `A[-n:]` on the rows of a matrix / entries of a
list: the last `n` entries when `0 < n ≤ len`, everything when `n = 0`
(since `-0 = 0`) or `n > len`. -/
def lastSlice {α : Type} (l : List α) (n : Nat) : List α :=
  if n = 0 then l else l.drop (l.length - n)

/-- Overwrite the last `n` entries of a boolean mask with `false`
(`mask[-n:] = False`); note Python `-0` keeps the whole list targeted. -/
def setLastFalse (mask : List Bool) (n : Nat) : List Bool :=
  if n = 0 then List.replicate mask.length false
  else mask.take (mask.length - n) ++
    List.replicate (mask.length - (mask.length - n)) false

/-- Truthiness of an optional boolean, as Python evaluates `if x:` where `x`
is `None`, `True` or `False`. -/
def truthy : Option Bool → Bool
  | some b => b
  | none => false

deriving instance DecidableEq for Except

/-- Python exceptions that the embedded functions raise or propagate. -/
inductive PyErr where
  | notImplementedError (msg : String)
  | valueError (msg : String)
  | keyError (msg : String)
  | syntaxError (msg : String)
  | linalgError
  | typeError (msg : String)
  | indexError (msg : String)
deriving DecidableEq

/-- Failure modes of the external matrix-inversion routine `nl.inv`: a
linear-algebra error (singular or non-square input), or the dtype error
`ParafuncError` that arises when a parameter is itself a function of other
parameters (core.py lines 15-18). -/
inductive InvErr where
  | linalg
  | parafunc
deriving DecidableEq

/-- One entry of the `prior` dictionary: name, distribution tag
(`prior[pp][3]`), and the last two numeric fields (`prior[pp][-2]`,
`prior[pp][-1]`). -/
structure PriorEntry where
  name : String
  dist : String
  penult : ℚ
  last : ℚ
deriving DecidableEq

/-- Emitted reduced system: the tuple
`(N2, A2, J2, cx, b2, x_bar)` assigned to `self.sys` (core.py line 207). -/
structure SysTuple where
  N2 : RMat
  A2 : RMat
  J2 : RMat
  cx : RVec
  b2 : RVec
  x_bar : ℚ
deriving DecidableEq

/-- Attached filter object; only the fields touched by `set_par`
(core.py lines 583-595) are modelled. -/
structure FilterObj where
  name : String
  eps_cov : RMat
  Q : RMat
deriving DecidableEq

/-- Immutable model-definition data of the DSGE object: names, calibration,
prior bookkeeping, and the compiled structural-matrix functions
(`self.AA`, `self.BB`, ... are callables of the parsed parameter object).
`get_sys` reads but never writes these fields. -/
structure StaticModel where
  -- `self.variables` (variable names; `variables` is reserved in Lean)
  varNames : List String
  const_var : Option String
  parameters : List String
  parafuncNames : List String
  parafuncFun : RVec → RVec
  par_fix : RVec
  prior_arg : List Nat
  prior_names : List String
  prior : List PriorEntry
  ndim : Nat
  p0 : RVec
  pcompile : RVec → RVec
  AA : RVec → RMat
  BB : RVec → RMat
  CC : RVec → RMat
  PSI : RVec → RMat
  ZZ : RVec → RMat
  bb : RVec → RVec
  DD : RVec → RVec
  QQ : RVec → RMat
  fdict_mode_x : Option RVec
  fdict_mcmc_mode_x : Option RVec
  fdict_init_value : Option (List (Option ℚ))

/-- Mutable state of the DSGE model object: everything `get_sys`, `get_par`
and `set_par` read and write on `self`.  `Option` fields model attributes
that may not exist yet (`hasattr` checks in the source).  `diag` collects
the diagnostic text printed by the source (an observability side channel). -/
structure DSGEState where
  m : StaticModel
  fdictReduceSys : Option Bool
  fdictIgnoreTests : Option Bool
  lks : Option (Int × Int)
  par : Option RVec
  ppar : Option RVec
  Pcache : Option RMat
  out_msk : Option (List Bool)
  vv : List String
  vx : List String
  dim_x : Nat
  dim_v : Nat
  hx : Option (RMat × RVec)
  obs_arg : List Nat
  SIG : Option RMat
  sys : Option SysTuple
  precalc : Option RMat
  filter : Option FilterObj
  diag : List String

/-- External numerical collaborators, modelled as oracle inputs: the
generalized Schur / Blanchard-Kahn solver `re_bk` (which raises on
non-existence or non-uniqueness of a bounded solution), the singular value
decomposition, matrix inversion, the eigenvalue-modulus routine `eig`, the
OBC preprocessing engine, and the sampling layer. -/
structure Oracles where
  re_bk : RMat → RMat → Nat → Except PyErr RMat
  svd : RMat → RMat × RVec × RMat
  inv : RMat → Except InvErr RMat
  eig : RMat → RVec
  preprocessO : SysTuple → Int → Int → RMat
  priorSampler : Nat → List RVec
  posteriorSampler : Nat → List RVec
  postMeanO : RVec
  randn : Nat → Nat → RMat

/-- Arguments of `get_sys` (core.py line 21).  The Python default of
`ignore_tests` is `False` (i.e. `some false`); `none` models passing `None`
explicitly, which falls back to `fdict`. -/
structure GSArgs where
  par : Option RVec
  reduce_sys : Option Bool
  l_max : Option Int
  k_max : Option Int
  linear : Bool
  tol : ℚ
  ignore_tests : Option Bool
  verbose : Bool

/-- Default `get_sys` arguments as in the Python signature. -/
def GSArgs.default : GSArgs :=
  ⟨none, none, none, none, false, tol0, some false, false⟩

/-- Intermediate values of `get_sys` up to the elimination of the constraint
variable (core.py lines 82-125). -/
structure Stage1Out where
  vv_v : List String
  dim_v : Nat
  AA : RMat
  BB : RMat
  CC : RMat
  bbv : RVec
  D : RMat
  in_x : List Bool
  vv_x2 : List String
  A1 : RMat
  b1 : RVec
  N : RMat
  P : RMat
  c_arg : Nat
  c1 : RVec
  c_P : RVec
  b2 : RVec
  N1 : RMat
  P1 : RMat
  vv_x3 : List String
  dim_x : Nat
  M1 : RMat
deriving DecidableEq

/-- Lines 79-125 of `get_sys`: require a declared constraint variable, build
the extended-variable matrices `(N, P)`, and eliminate the constraint
variable's column.  Python `list.index` raises `ValueError` when the
constraint variable is not part of the extended variable set. -/
def stage1 (m : StaticModel) (_par ppar : RVec) : Except PyErr Stage1Out :=
  match m.const_var with
  | none => .error (.notImplementedError "Package is only meant to work with OBCs")
  | some cv =>
    let vv_v := m.varNames
    let dim_v := vv_v.length
    let AA := m.AA ppar
    let BB := m.BB ppar
    let CC := m.CC ppar
    let bbv := m.bb ppar
    let D := m.PSI ppar
    -- line 97: in_x = ~fast0(AA, 0) | ~fast0(bb[:dim_v])
    let in_x := orMask (notMask (fast0Cols tol0 AA)) (notMask (fast0E tol0 (bbv.take dim_v)))
    let vv_x2 := maskSelV in_x vv_v
    let A1 := maskSelCols in_x AA
    let b1 := maskSelV in_x (bbv.take dim_v) ++ bbv.drop dim_v
    let dim_x := vv_x2.length
    -- lines 107-110: N and P as 2x2 block matrices
    let N := blockM (zerosM (rowsOf A1) (colsOf A1)) CC (eyeM dim_x) (zerosM dim_x dim_v)
    let P := blockM (negM A1) (negM BB) (zerosM dim_x dim_x) (maskSelRows in_x (eyeM dim_v))
    if cv ∈ vv_x2 then
      let c_arg := vv_x2.indexOf cv
      let c1 := colM N c_arg
      let c_P := colM P c_arg
      let b2 := b1.eraseIdx c_arg
      let N1 := deleteColM c_arg N
      let P1 := deleteColM c_arg P
      let vv_x3 := vv_x2.eraseIdx c_arg
      let dim_x := vv_x3.length
      let M1 := addM N1 (outerM c1 b2)
      .ok ⟨vv_v, dim_v, AA, BB, CC, bbv, D, in_x, vv_x2, A1, b1, N, P,
           c_arg, c1, c_P, b2, N1, P1, vv_x3, dim_x, M1⟩
    else
      .error (.valueError "constraint variable is not in the extended variable list")

/-- Message of the non-recoverable modeling-validity error of lines 145-146
of `get_sys`. -/
def futureMsg : String :=
  "The system depends directly or indirectly on whether the constraint holds in the future or not."

/-- Line 144 of `get_sys`: the modeling-validity check after
desingularization.  True when the eliminated constraint variable's future
value still enters the zero-singular-value block, i.e. when
`not fast0(c2[s0], 2) or not fast0(U.T[s0] @ c_P, 2)` (both projections are
checked against the default grgrlib tolerance). -/
def futureDependence (s0 : List Bool) (c2 : RVec) (Ut : RMat) (c_P : RVec) : Bool :=
  (!fast0All tol0 (maskSelV s0 c2)) || (!fast0All tol0 (matvec (maskSelRows s0 Ut) c_P))

/-- Intermediate values of `get_sys` after the Klein solve and the SVD-based
desingularization (core.py lines 125-146). -/
structure Stage2Out where
  s1 : Stage1Out
  OME : RMat
  J : RMat
  U : RMat
  sv : RVec
  s0 : List Bool
  P2 : RMat
  N2 : RMat
  c2 : RVec
deriving DecidableEq

/-- Lines 125-146 of `get_sys`: run the external Klein / Blanchard-Kahn
solver `re_bk` (whose failure propagates), take the SVD of `P1`, replace the
near-zero singular-value rows of `P2` with the corresponding rows of `N2`,
and fail with a descriptive `NotImplementedError` when the system depends on
the future constraint status. -/
def stage2 (o : Oracles) (tol : ℚ) (s : Stage1Out) : Except PyErr Stage2Out :=
  match o.re_bk s.M1 s.P1 s.dim_x with
  | .error e => .error e
  | .ok OME =>
    let J := hstackM (eyeM s.dim_x) (negM OME)
    let (U, sv, _V) := o.svd s.P1
    -- line 134: s0 = s < tol (the tolerance passed to get_sys)
    let s0 := sv.map (fun x => decide (x < tol))
    let Ut := transposeM U
    let P2 := matmul Ut s.P1
    let N2 := matmul Ut s.N1
    let c2 := matvec Ut s.c1
    -- line 141: P2[s0] = N2[s0]
    let P2d := maskAssignRows s0 P2 N2
    if futureDependence s0 c2 Ut s.c_P then
      .error (.notImplementedError futureMsg)
    else
      .ok ⟨s, OME, J, U, sv, s0, P2d, N2, c2⟩

/-- Warning text printed at line 158 of `get_sys` when `x_bar` is
unspecified. -/
def xbarWarning : String :=
  "Parameter x_bar (maximum value of the constraint) not specified. Assuming x_bar = -1 for now."

/-- Lines 152-159 of `get_sys`: resolve the constraint bound `x_bar` with the
precedence structural parameter -> functional parameter -> default `-1` with
a printed warning.  Returns the value and the emitted diagnostic text. -/
def resolveXbar (m : StaticModel) (par : RVec) : ℚ × List String :=
  if "x_bar" ∈ m.parameters then
    (par.getD (m.parameters.indexOf "x_bar") 0, [])
  else if "x_bar" ∈ m.parafuncNames then
    ((m.parafuncFun par).getD (m.parafuncNames.indexOf "x_bar") 0, [])
  else
    (-1, [xbarWarning])

/-- Result of the pure computational core of `get_sys` (through line 172):
everything needed to assemble and prune the emitted system. -/
structure CoreOut where
  s2 : Stage2Out
  x_bar : ℚ
  cx : RVec
  N : RMat
  A : RMat
  out_msk : List Bool
deriving DecidableEq

/-- Line 171 of `get_sys`: `out_msk = fast0(N, 0) & fast0(A, 0) & fast0(b2)
& fast0(cx)` — position `i` is true when column `i` of the inactive
transition matrix `N`, column `i` of the active transition matrix `A`,
entry `i` of the constraint vector `b2` and entry `i` of the offset vector
`cx` are all numerically zero. -/
def redMask0 (N A : RMat) (b2 cx : RVec) : List Bool :=
  andMask (andMask (andMask (fast0Cols tol0 N) (fast0Cols tol0 A))
    (fast0E tol0 b2)) (fast0E tol0 cx)

/-- Lines 171-172 of `get_sys`: the full reduction mask, refining the last
`dv` (observable-variable) positions of `redMask0` by the per-column zero
test of the observation loading `ZZ`. -/
def reductionMask (N A : RMat) (b2 cx : RVec) (ZZ : RMat) (dv : Nat) : List Bool :=
  (redMask0 N A b2 cx).take ((redMask0 N A b2 cx).length - dv) ++
    andMask (lastSlice (redMask0 N A b2 cx) dv) (fast0Cols tol0 ZZ)

/-- Lines 148-172 of `get_sys`: resolve `x_bar`, solve for the constraint
displacement `cx = inv(P2) @ c2 * x_bar` (a `ParafuncError` from the dtype
of the parameter vector is converted to a descriptive `SyntaxError`, a
`LinAlgError` propagates), form the inactive / active transition matrices,
and compute the reduction mask including the observation-loading refinement
of its observable-variable block. -/
def stage3 (m : StaticModel) (o : Oracles) (par ppar : RVec) (s : Stage2Out) :
    List String × Except PyErr CoreOut :=
  let (x_bar, d) := resolveXbar m par
  match o.inv s.P2 with
  | .error .parafunc =>
    (d, .error (.syntaxError
      "At least one parameter is a function of other parameters, and should be declared in parafunc."))
  | .error .linalg => (d, .error .linalgError)
  | .ok Pi =>
    -- line 162: cx = nl.inv(P2) @ c2 * x_bar
    let cx := scaleV x_bar (matvec Pi s.c2)
    -- lines 168-169
    let N := matmul Pi s.N2
    let A := matmul Pi (addM s.N2 (outerM s.c2 s.s1.b2))
    -- lines 171-172: the reduction mask
    (d, .ok ⟨s, x_bar, cx, N, A, reductionMask N A s.s1.b2 cx (m.ZZ ppar) s.s1.dim_v⟩)

/-- Computational core of `get_sys` (lines 79-172), composing the three
stages; returns the emitted diagnostics together with the result. -/
def computeCore (m : StaticModel) (o : Oracles) (tol : ℚ) (par ppar : RVec) :
    List String × Except PyErr CoreOut :=
  match stage1 m par ppar with
  | .error e => ([], .error e)
  | .ok s1 =>
    match stage2 o tol s1 with
    | .error e => ([], .error e)
    | .ok s2 => stage3 m o par ppar s2

/-- Lines 181-190 of `get_sys`: reconciliation of a previously cached
state-transition matrix `self.P` against the freshly computed mask.
`cached` is the just-stored `self.out_msk` (the new observable-block mask
before `reduce_sys` gating), `s_out` is the gated observable-block mask.
Growing: `P_new` is created as a zero matrix and the source statement
`P_new[~self.out_msk][:, ~self.out_msk] = self.P` assigns into the copy that
chained boolean indexing returns, so `P_new` stays all zeros; only the shape
diagnostic is emitted.  Shrinking sub-selects surviving rows and columns. -/
def reconcileP (Pold : Option RMat) (cached s_out : List Bool) :
    Option RMat × List String :=
  match Pold with
  | none => (none, [])
  | some P =>
    let nSurv := countTrue (notMask s_out)
    if rowsOf P < nSurv then
      let P_new := zerosM cached.length cached.length
      let block := maskSelCols (notMask cached) (maskSelRows (notMask cached) P_new)
      let d := if shapeOf block ≠ shapeOf P then
          ["[get_sys:]      Shape missmatch of P-matrix, number of states seems to differ!"]
        else []
      -- line 187 is a no-op on P_new (chained fancy indexing assigns to a copy)
      (some P_new, d)
    else if rowsOf P > nSurv then
      (some (maskSelCols (notMask s_out) (maskSelRows (notMask s_out) P)), [])
    else (some P, [])

/-- Lines 45-56 of `get_sys`: the effective `l_max` and the printed
correction notice; a passed `l_max` is corrected up to 2 and incremented by
one, otherwise the cached `self.lks` or the default applies. -/
def effL (a : GSArgs) (st : DSGEState) : Int × List String :=
  match a.l_max with
  | some l =>
    if l < 2 then ((2 : Int) + 1, ["[get_sys:]      l_max must be at least 2. Correcting..."])
    else (l + 1, [])
  | none =>
    match st.lks with
    | some lk => (lk.1, [])
    | none => ((if a.linear then 1 else 3 : Int), [])

/-- Lines 58-63 of `get_sys`: the effective `k_max`. -/
def effK (a : GSArgs) (st : DSGEState) : Int :=
  match a.k_max with
  | some k => k
  | none =>
    match st.lks with
    | some lk => lk.2
    | none => (if a.linear then 0 else 17 : Int)

/-- Lines 45-65 of `get_sys`: the effective solver depths and the printed
correction notice, combining `effL` and `effK`. -/
def effLks (a : GSArgs) (st : DSGEState) : (Int × Int) × List String :=
  (((effL a st).1, effK a st), (effL a st).2)

/-- Line 70 of `get_sys`: the effective parameter vector, defaulting to the
stored calibration. -/
def effPar (a : GSArgs) (st : DSGEState) : RVec :=
  match a.par with
  | some p => p
  | none => st.m.p0

/-- Line 40: effective `reduce_sys`, falling back to `fdict`. -/
def effReduce (a : GSArgs) (st : DSGEState) : Option Bool :=
  match a.reduce_sys with
  | some b => some b
  | none => st.fdictReduceSys

/-- Line 42: effective `ignore_tests`, falling back to `fdict` when `None`
is passed explicitly (the Python default is `False`). -/
def effIgnore (a : GSArgs) (st : DSGEState) : Option Bool :=
  match a.ignore_tests with
  | some b => some b
  | none => st.fdictIgnoreTests

/-- Emitted system assembled from the core result and the gated mask
(lines 201-207): rows/columns where the gated mask is true are pruned. -/
def pruneSys (r : CoreOut) (gated : List Bool) : SysTuple :=
  { N2 := maskSelCols (notMask gated) (maskSelRows (notMask gated) r.N)
    A2 := maskSelCols (notMask gated) (maskSelRows (notMask gated) r.A)
    J2 := maskSelCols (notMask gated) r.s2.J
    cx := maskSelV (notMask gated) r.cx
    b2 := maskSelV (notMask gated) r.s2.s1.b2
    x_bar := r.x_bar }

/-- The system compiler `get_sys` (core.py lines 21-222).  Returns the
mutated model object together with the raised exception, if any; mutations
performed before the failure point remain visible, as in Python.  The
stability self-test runs after the system has been emitted and uses the
external `preprocess` / `eig` collaborators. -/
def get_sys (a : GSArgs) (o : Oracles) (st : DSGEState) : DSGEState × Option PyErr :=
  let lk := (effLks a st).1
  let dLks := (effLks a st).2
  let rs := effReduce a st
  let ig := effIgnore a st
  -- line 70: default to the calibration when no parameters are given
  let par := effPar a st
  let ppar := st.m.pcompile par
  let st1 : DSGEState :=
    { st with lks := some lk, fdictReduceSys := rs, fdictIgnoreTests := ig,
              par := some par, ppar := some ppar, diag := st.diag ++ dLks }
  match computeCore st.m o a.tol par ppar with
  | (dCore, .error e) => ({ st1 with diag := st1.diag ++ dCore }, some e)
  | (dCore, .ok r) =>
    let dv := st.m.varNames.length
    -- line 174: cache the observable-block slice of the mask
    let cachedMsk := lastSlice r.out_msk dv
    let st2 := { st1 with diag := st1.diag ++ dCore, out_msk := some cachedMsk }
    -- lines 176-177: without reduce_sys, reset the observable block
    let gated := if truthy rs then r.out_msk else setLastFalse r.out_msk dv
    let s_out := lastSlice gated dv
    -- lines 181-190: reconcile the cached state-transition matrix
    let (pc, dRec) := reconcileP st.Pcache cachedMsk s_out
    let st3 := { st2 with Pcache := pc, diag := st2.diag ++ dRec }
    -- lines 193-207: attach the reduced system to the object
    let vv' := maskSelV (notMask s_out) r.s2.s1.vv_v
    let hxM := maskSelCols (notMask s_out) (st.m.ZZ ppar)
    let sys := pruneSys r gated
    let st4 :=
      { st3 with vv := vv', vx := r.s2.s1.vv_x3, dim_x := r.s2.s1.dim_x,
                 dim_v := vv'.length, hx := some (hxM, st.m.DD ppar),
                 obs_arg := whereCols hxM,
                 SIG := some (maskSelRows (notMask s_out)
                   (matmul (transposeM r.s2.s1.BB) r.s2.s1.D)),
                 sys := some sys }
    -- line 213: external OBC preprocessing
    let tObj := o.preprocessO sys lk.1 lk.2
    let st5 := { st4 with precalc := some tObj }
    -- lines 215-220: stability self-test on a sub-block of the precomputation
    if truthy ig then (st5, none)
    else
      let sliced := lastSlice tObj (colsOf tObj)
      let nEx := ((o.eig sliced).filter (fun x => 1 < x)).length
      if nEx ≠ 0 then (st5, some (.valueError "Explosive dynamics detected: EV(s) > 1"))
      else (st5, none)

/-- The `dummy` argument of `get_par` / `set_par`: `None`, a string, or a
parameter vector. -/
inductive GDummy where
  | noneD
  | str (s : String)
  | vec (v : RVec)
deriving DecidableEq

/-- Display form of a `dummy` argument, used in error messages. -/
def GDummy.reprStr : GDummy → String
  | .noneD => "None"
  | .str s => s
  | .vec _ => "array"

/-- Arguments of `get_par` (core.py line 364). -/
structure GPArgs where
  dummy : GDummy
  npar : Option RVec
  asdict : Bool
  full : Bool
  nsamples : Nat
  roundto : Nat

/-- Default `get_par` arguments as in the Python signature. -/
def GPArgs.default : GPArgs := ⟨.noneD, none, false, true, 1, 5⟩

/-- Possible return values of `get_par`: a scalar (named lookup), a
parameter vector, a batch of sampled vectors, name-keyed dictionaries
(with sampled-batch variants, where each name maps to a row of the batch),
or a covariance matrix. -/
inductive ParResult where
  | scalar (q : ℚ)
  | vec (v : RVec)
  | sample (vs : List RVec)
  | dicts (p : List (String × ℚ)) (pf : List (String × ℚ))
  | dictsSample (p : List (String × RVec)) (pf : List (String × RVec))
  | dictHalf (p : List (String × ℚ))
  | dictHalfSample (p : List (String × RVec))
  | cov (M : RMat)
deriving DecidableEq

/-- Round-half-to-even of a rational to an integer (`np.round` ties rule). -/
def roundHalfEven (x : ℚ) : ℤ :=
  let f := ⌊x⌋
  let r := x - f
  if r < 1/2 then f else if 1/2 < r then f + 1 else if f % 2 = 0 then f else f + 1

/-- Rounding to `k` decimal places (`np.round(x, k)`). -/
def roundToQ (k : Nat) (x : ℚ) : ℚ := (roundHalfEven (x * 10 ^ k) : ℚ) / 10 ^ k

/-- Lines 469-475 of `get_par`: the prior-mean vector (uniform priors use
the midpoint of their last two fields, others their penultimate field). -/
def priorMeanList (prior : List PriorEntry) : RVec :=
  prior.map (fun e => if e.dist = "uniform" then (1/2) * e.penult + (1/2) * e.last else e.penult)

/-- Lines 476-485 of `get_par`: the adjusted prior mean, correcting for the
`inv_gamma_dynare` parametrization. -/
def adjPriorMeanList (prior : List PriorEntry) : RVec :=
  prior.map (fun e =>
    if e.dist = "inv_gamma_dynare" then e.penult * 10
    else if e.dist = "uniform" then (1/2) * e.penult + (1/2) * e.last
    else e.penult)

/-- Lines 486-490 of `get_par`: the initial values, with missing entries
(`None`) filled from the calibrated estimated subset for indices below
`ndim`. -/
def initFill (iv : List (Option ℚ)) (calib : RVec) (ndim : Nat) : RVec :=
  iv.enum.map (fun p =>
    match p.2 with
    | some x => x
    | none => if p.1 < ndim then calib.getD p.1 0 else 0)

/-- Lines 449-494 of `get_par`: the named-parameter-set branch.  The current
parameter vector is overwritten with the fixed calibration so that all
parameters are reset; an unrecognized token restores the previous vector
and raises a `KeyError`.  The samplers and the posterior mean are external
collaborators (oracles). -/
def getParTokenElse (dummy : GDummy) (o : Oracles) (st : DSGEState) (nsamples : Nat) :
    DSGEState × Except PyErr (RVec ⊕ List RVec) :=
  let old_par := st.par
  let stF := { st with par := some st.m.par_fix }
  if dummy = .str "prior" then (stF, .ok (.inr (o.priorSampler nsamples)))
  else if dummy = .str "post" ∨ dummy = .str "posterior" then
    (stF, .ok (.inr (o.posteriorSampler nsamples)))
  else if dummy = .str "posterior_mean" ∨ dummy = .str "post_mean" then
    (stF, .ok (.inl o.postMeanO))
  else if dummy = .str "mode" then
    match stF.m.fdict_mode_x with
    | some v => (stF, .ok (.inl v))
    | none => (stF, .error (.keyError "mode_x"))
  else if dummy = .str "mcmc_mode" ∨ dummy = .str "mode_mcmc" ∨
      dummy = .str "posterior_mode" ∨ dummy = .str "post_mode" then
    match stF.m.fdict_mcmc_mode_x with
    | some v => (stF, .ok (.inl v))
    | none => (stF, .error (.keyError "mcmc_mode_x"))
  else if dummy = .str "calib" then
    (stF, .ok (.inl (selIdxs stF.m.par_fix stF.m.prior_arg)))
  else if dummy = .str "prior_mean" then (stF, .ok (.inl (priorMeanList stF.m.prior)))
  else if dummy = .str "adj_prior_mean" then (stF, .ok (.inl (adjPriorMeanList stF.m.prior)))
  else if dummy = .str "init" then
    match stF.m.fdict_init_value with
    | some iv => (stF, .ok (.inl (initFill iv (selIdxs stF.m.par_fix stF.m.prior_arg) stF.m.ndim)))
    | none => (stF, .error (.keyError "init_value"))
  else
    ({ stF with par := old_par },
     .error (.keyError ("Parameter or parametrization " ++ dummy.reprStr ++ " does not exist.")))

/-- Lines 442-448 of `get_par`: `best` tries `mode` and falls back to
`init` when anything goes wrong; the fallback runs on the state left behind
by the failed attempt, as in Python. -/
def getParBest (o : Oracles) (st : DSGEState) : DSGEState × Except PyErr RVec :=
  match getParTokenElse (.str "mode") o st 1 with
  | (st', .ok (.inl v)) => (st', .ok v)
  | (st', .ok (.inr _)) => (st', .ok [])
  | (st', .error _) =>
    match getParTokenElse (.str "init") o st' 1 with
    | (st'', .ok (.inl v)) => (st'', .ok v)
    | (st'', .ok (.inr _)) => (st'', .ok [])
    | (st'', .error e) => (st'', .error e)

/-- Lines 496-519 of `get_par`: assemble the final return value from the
candidate (single vector or sampled batch), honouring `full`, `asdict` and
the `nsamples > 1` perturbation (which multiplies by `1 + 1e-3 * randn`).
For sampled batches the source zips parameter names with the rows of the
sample matrix; the vectorized `pffunc` application is modelled row-wise. -/
def getParTail (a : GPArgs) (o : Oracles) (st : DSGEState) (dummy : GDummy)
    (pars : RVec) (cand : RVec ⊕ List RVec) : DSGEState × Except PyErr ParResult :=
  let pars_str := st.m.parameters
  let pfnames := st.m.parafuncNames
  let isSampler := dummy = GDummy.str "prior" ∨ dummy = GDummy.str "post" ∨
    dummy = GDummy.str "posterior"
  if a.full then
    match cand with
    | .inr cands =>
      let par := cands.map (fun c => setIdxs pars st.m.prior_arg c)
      if !a.asdict then (st, .ok (.sample par))
      else
        (st, .ok (.dictsSample
          (List.zip pars_str (par.map (fun v => v.map (roundToQ a.roundto))))
          (List.zip pfnames ((par.map st.m.parafuncFun).map (fun v => v.map (roundToQ a.roundto))))))
    | .inl c =>
      let par := setIdxs pars st.m.prior_arg c
      if !a.asdict then (st, .ok (.vec par))
      else
        (st, .ok (.dicts (List.zip pars_str (par.map (roundToQ a.roundto)))
          (List.zip pfnames ((st.m.parafuncFun par).map (roundToQ a.roundto)))))
  else if a.asdict then
    let names := st.m.prior_arg.map (fun i => pars_str.getD i "")
    match cand with
    | .inl c => (st, .ok (.dictHalf (List.zip names (c.map (roundToQ a.roundto)))))
    | .inr cs => (st, .ok (.dictHalfSample (List.zip names cs)))
  else if 1 < a.nsamples ∧ ¬isSampler then
    match cand with
    | .inl c =>
      let R := o.randn a.nsamples c.length
      (st, .ok (.sample (R.map (fun row =>
        List.zipWith (fun x e => x * (1 + (1/1000) * e)) c row))))
    | .inr cs => (st, .ok (.sample cs))
  else
    match cand with
    | .inl c => (st, .ok (.vec c))
    | .inr cs => (st, .ok (.sample cs))

/-- Body of `get_par` after the current parameters are guaranteed to exist
(core.py lines 405-519): the dynamic dispatch over the `dummy` argument. -/
def getParBody (a : GPArgs) (o : Oracles) (st : DSGEState) :
    DSGEState × Except PyErr ParResult :=
  let pfnames := st.m.parafuncNames
  let pars_str := st.m.parameters
  let pars0 := st.par.getD st.m.par_fix
  -- lines 410-414: an npar override replaces the estimated subset or the
  -- whole vector depending on its length
  let pars :=
    match a.npar with
    | some nv =>
      if nv.length ≠ st.m.par_fix.length then setIdxs pars0 st.m.prior_arg nv else nv
    | none => pars0
  match a.dummy with
  | .noneD =>
    -- lines 416-421: current estimated subset, falling back to best on failure
    if st.m.prior_arg.all (fun i => i < pars.length) then
      getParTail a o st .noneD pars (.inl (selIdxs pars st.m.prior_arg))
    else
      match getParBest o st with
      | (st', .error e) => (st', .error e)
      | (st', .ok c) => getParTail a o st' .noneD pars (.inl c)
  | .vec v =>
    -- lines 422-425: full-length or estimated-subset-length vectors
    if v.length = st.m.par_fix.length then
      getParTail a o st (.vec v) pars (.inl (selIdxs v st.m.prior_arg))
    else if v.length = st.m.prior_arg.length then
      getParTail a o st (.vec v) pars (.inl v)
    else
      -- any other vector falls through every string case into the
      -- unknown-parametrization error of the final else branch
      match getParTokenElse (.vec v) o st a.nsamples with
      | (st', .error e) => (st', .error e)
      | (st', .ok c) => getParTail a o st' (.vec v) st'.m.par_fix c
  | .str s =>
    if s ∈ pars_str then
      -- lines 426-430: named structural parameter, early scalar return
      (st, .ok (.scalar (pars.getD (pars_str.indexOf s) 0)))
    else if s ∈ pfnames then
      -- lines 431-435: named functional parameter, early scalar return
      (st, .ok (.scalar ((st.m.parafuncFun pars).getD (pfnames.indexOf s) 0)))
    else if s = "cov_mat" then
      -- lines 436-441: recompile, then return the shock covariance
      match get_sys { GSArgs.default with par := some pars } o st with
      | (st', some e) => (st', .error e)
      | (st', none) => (st', .ok (.cov (st'.m.QQ (st'.ppar.getD []))))
    else if s = "best" then
      match getParBest o st with
      | (st', .error e) => (st', .error e)
      | (st', .ok c) => getParTail a o st' (.str "best") pars (.inl c)
    else
      match getParTokenElse (.str s) o st a.nsamples with
      | (st', .error e) => (st', .error e)
      | (st', .ok c) =>
        -- line 452 also reassigned the local pars to the fixed calibration
        getParTail a o st' (.str s) st'.m.par_fix c

/-- The parameter accessor `get_par` (core.py lines 364-519).  When the
object has no current parameter vector, `get_sys` runs first (line 402). -/
def get_par (a : GPArgs) (o : Oracles) (st : DSGEState) :
    DSGEState × Except PyErr ParResult :=
  match st.par with
  | none =>
    match get_sys GSArgs.default o st with
    | (st', some e) => (st', .error e)
    | (st', none) => getParBody a o st'
  | some _ => getParBody a o st

/-- Arguments of `set_par` (core.py line 527); `gs` carries the keyword
arguments forwarded to the `get_sys` call. -/
structure SPArgs where
  dummy : GDummy
  setpar : Option ℚ
  npar : Option RVec
  gs : GSArgs

/-- Default `set_par` arguments. -/
def SPArgs.default : SPArgs := ⟨.noneD, none, none, GSArgs.default⟩

/-- Return value of `set_par`: either the altered `npar` copy (early return
without recompilation) or the result of the final `get_par` call. -/
inductive SetParRet where
  | nparOut (v : RVec)
  | parOut (r : ParResult)
deriving DecidableEq

/-- Lines 553-578 of `set_par`: resolve the new full parameter vector
(`.inl`) or the altered copy of `npar` for the early return (`.inr`). -/
def spResolve (a : SPArgs) (o : Oracles) (st : DSGEState) :
    DSGEState × Except PyErr (RVec ⊕ RVec) :=
  let pars_str := st.m.parameters
  let pfnames := st.m.parafuncNames
  let par0 := st.par.getD st.m.par_fix
  match a.setpar with
    | none =>
      match a.dummy with
      | .noneD =>
        match get_par { GPArgs.default with dummy := .noneD } o st with
        | (st', .error e) => (st', .error e)
        | (st', .ok (.vec v)) => (st', .ok (.inl v))
        | (st', .ok _) => (st', .error (.typeError "expected a parameter vector"))
      | .vec v =>
        if v.length = st.m.par_fix.length then (st, .ok (.inl v))
        else if v.length = st.m.prior_arg.length then
          (st, .ok (.inl (setIdxs par0 st.m.prior_arg v)))
        else
          match get_par { GPArgs.default with dummy := .vec v } o st with
          | (st', .error e) => (st', .error e)
          | (st', .ok (.vec w)) => (st', .ok (.inl w))
          | (st', .ok _) => (st', .error (.typeError "expected a parameter vector"))
      | .str s =>
        -- Python compares len(dummy) of the string here; a matching length
        -- would feed a string into the numeric code, which fails
        if s.length = st.m.par_fix.length ∨ s.length = st.m.prior_arg.length then
          (st, .error (.typeError "cannot use a string as a parameter vector"))
        else
          match get_par { GPArgs.default with dummy := .str s } o st with
          | (st', .error e) => (st', .error e)
          | (st', .ok (.vec w)) => (st', .ok (.inl w))
          | (st', .ok _) => (st', .error (.typeError "expected a parameter vector"))
    | some sp =>
      match a.dummy with
      | .str s =>
        if s ∈ pars_str then
          match a.npar with
          | some nv =>
            -- lines 565-571: alter a copy of npar and return it without
            -- recompiling; Python list.index raises when the name is not in
            -- the estimated subset, and indexing out of range raises
            if nv.length = st.m.prior_arg.length then
              if s ∈ st.m.prior_names then
                let idx := st.m.prior_names.indexOf s
                if idx < nv.length then (st, .ok (.inr (nv.set idx sp)))
                else (st, .error (.indexError "npar assignment out of range"))
              else (st, .error (.valueError "name is not an estimated parameter"))
            else
              let idx := pars_str.indexOf s
              if idx < nv.length then (st, .ok (.inr (nv.set idx sp)))
              else (st, .error (.indexError "npar assignment out of range"))
          | none =>
            -- line 572
            let idx := pars_str.indexOf s
            if idx < par0.length then (st, .ok (.inl (par0.set idx sp)))
            else (st, .error (.indexError "par assignment out of range"))
        else if s ∈ pfnames then
          -- lines 573-575
          (st, .error (.syntaxError
            ("Can not set parameter " ++ s ++ " that is a function of other parameters.")))
        else
          -- lines 576-578
          (st, .error (.syntaxError ("Parameter " ++ s ++ " is not defined for this model.")))
      | d =>
        -- a non-string dummy with setpar matches neither name list
        (st, .error (.syntaxError ("Parameter " ++ d.reprStr ++ " is not defined for this model.")))

/-- Lines 583-595 of `set_par`: recompute the attached filter's shock
covariance and process-noise covariance from the newly compiled system (for
a Kalman filter from the shock loading `SIG` and the shock covariance; a
particle filter is unsupported). -/
def spFilterUpdate (st1 : DSGEState) : DSGEState × Option PyErr :=
  match st1.filter with
  | none => (st1, none)
  | some f =>
    let epsCov := st1.m.QQ (st1.ppar.getD [])
    if f.name = "KalmanFilter" then
      let CO := matmul (st1.SIG.getD []) epsCov
      let f' : FilterObj := ⟨f.name, epsCov, matmul CO (transposeM CO)⟩
      ({ st1 with filter := some f' }, none)
    else if f.name = "ParticleFilter" then
      ({ st1 with filter := some { f with eps_cov := epsCov } },
       some (.notImplementedError "ParticleFilter"))
    else
      let f' : FilterObj := ⟨f.name, epsCov, matmul epsCov epsCov⟩
      ({ st1 with filter := some f' }, none)

/-- The parameter setter `set_par` (core.py lines 527-604).  Resolves the
new full parameter vector (or early-returns an altered copy of `npar`
without recompiling), recompiles via `get_sys`, recomputes the attached
filter's process-noise covariance from the newly compiled system, and
returns the freshly set parameters. -/
def set_par (a : SPArgs) (o : Oracles) (st : DSGEState) :
    DSGEState × Except PyErr SetParRet :=
  match spResolve a o st with
  | (st', .error e) => (st', .error e)
  | (st', .ok (.inr nv)) => (st', .ok (.nparOut nv))
  | (st', .ok (.inl par)) =>
    -- line 581: recompile with the resolved vector
    match get_sys { a.gs with par := some par } o st' with
    | (st1, some e) => (st1, .error e)
    | (st1, none) =>
      match spFilterUpdate st1 with
      | (st2, some e) => (st2, .error e)
      | (st2, none) =>
        -- line 604: return the freshly set parameters
        match get_par GPArgs.default o st2 with
        | (st3, .error e) => (st3, .error e)
        | (st3, .ok r) => (st3, .ok (.parOut r))

/-- Swap two rows of a matrix. -/
def swapRows (A : RMat) (i j : Nat) : RMat :=
  (A.set i (A.getD j [])).set j (A.getD i [])

/-- One column step of Gauss-Jordan elimination on an augmented matrix:
pivot search below the diagonal, row swap, normalization, elimination.
Returns `none` when no pivot exists (singular input). -/
def gaussStep (aug : RMat) (col : Nat) : Option RMat :=
  match (aug.drop col).findIdx? (fun r => r.getD col 0 ≠ 0) with
  | none => none
  | some k =>
    let augS := swapRows aug col (col + k)
    let prow := augS.getD col []
    let pval := prow.getD col 0
    let prowN := prow.map (· / pval)
    some (augS.enum.map (fun p =>
      if p.1 = col then prowN
      else addV p.2 (scaleV (-(p.2.getD col 0)) prowN)))

/-- Exact inverse of a square rational matrix by Gauss-Jordan elimination;
fails like `nl.inv` on singular or non-square input.  Used to instantiate
the inversion oracle on concrete inputs. -/
def ratInv (A : RMat) : Except InvErr RMat :=
  let n := rowsOf A
  if colsOf A ≠ n then .error .linalg
  else
    match (List.range n).foldl (fun acc c => acc.bind (fun aug => gaussStep aug c))
        (some (hstackM A (eyeM n))) with
    | none => .error .linalg
    | some aug => .ok (aug.map (fun r => r.drop n))

/-- A minimal concrete DSGE model used to exercise the embedding: two named
variables of which the first is the constraint variable, a single structural
parameter `x_bar`, and a single observable loading on the second variable. -/
def cm : StaticModel :=
  { varNames := ["r", "y"]
    const_var := some "r"
    parameters := ["x_bar"]
    parafuncNames := []
    parafuncFun := fun _ => []
    par_fix := [0]
    prior_arg := [0]
    prior_names := ["x_bar"]
    prior := []
    ndim := 1
    p0 := [0]
    pcompile := id
    AA := fun _ => [[1, 0], [0, 0]]
    BB := fun _ => [[1, 0], [0, 1]]
    CC := fun _ => [[0, 0], [0, 1/2]]
    PSI := fun _ => [[0], [0]]
    ZZ := fun _ => [[0, 1]]
    bb := fun _ => [0, 0, 0, 0]
    DD := fun _ => [0]
    QQ := fun _ => [[1]]
    fdict_mode_x := none
    fdict_mcmc_mode_x := none
    fdict_init_value := none }

/-- Fresh model state for a given static model: no attribute of the mutable
layer exists yet except an `fdict` with `reduce_sys` disabled. -/
def initState (m : StaticModel) : DSGEState :=
  { m := m, fdictReduceSys := some false, fdictIgnoreTests := none, lks := none,
    par := none, ppar := none, Pcache := none, out_msk := none, vv := [], vx := [],
    dim_x := 0, dim_v := 0, hx := none, obs_arg := [], SIG := none, sys := none,
    precalc := none, filter := none, diag := [] }

/-- Concrete oracle instantiation for the minimal model: the Klein solver
returns the empty solution operator (no forward-looking block remains), the
SVD returns orthonormal-column factors, inversion is exact, and the
stability precomputation is trivial. -/
def cOracles : Oracles :=
  { re_bk := fun _ _ _ => .ok []
    svd := fun _ => ([[1, 0], [0, 1], [0, 0]], [1, 1], eyeM 2)
    inv := ratInv
    eig := fun _ => []
    preprocessO := fun _ _ _ => []
    priorSampler := fun _ => []
    posteriorSampler := fun _ => []
    postMeanO := []
    randn := fun _ _ => [] }

/-- A second concrete model with a nontrivial forward-looking block: both
variables enter the forward matrix, so after eliminating the constraint
variable one forward-looking column remains ahead of the observable block. -/
def cm2 : StaticModel :=
  { varNames := ["a", "b"]
    const_var := some "a"
    parameters := ["x_bar"]
    parafuncNames := []
    parafuncFun := fun _ => []
    par_fix := [0]
    prior_arg := [0]
    prior_names := ["x_bar"]
    prior := []
    ndim := 1
    p0 := [0]
    pcompile := id
    AA := fun _ => [[1, 1], [0, 0]]
    BB := fun _ => [[1, 0], [0, 1]]
    CC := fun _ => [[1/2, 0], [0, 1/2]]
    PSI := fun _ => [[0], [0]]
    ZZ := fun _ => [[1, 1]]
    bb := fun _ => [0, 0, 0, 0]
    DD := fun _ => [0]
    QQ := fun _ => [[1]]
    fdict_mode_x := none
    fdict_mcmc_mode_x := none
    fdict_init_value := none }

/-- Oracle instantiation for `cm2`: the SVD factor has orthonormal columns
(a column selection), all singular values clear the tolerance, and the
Klein solver returns a one-row solution operator. -/
def cOracles2 : Oracles :=
  { cOracles with
    re_bk := fun _ _ _ => .ok [[0, 0]]
    svd := fun _ => ([[0, 1, 0], [0, 0, 1], [1, 0, 0], [0, 0, 0]], [2, 1, 1], eyeM 3) }

/-- Oracle instantiation under which the desingularization check fails for
`cm`: one singular value below tolerance whose left singular vector loads
on the constraint column. -/
def cOraclesC1 : Oracles :=
  { cOracles with svd := fun _ => ([[1, 0], [0, 0], [0, 1]], [1, 0], eyeM 2) }

/-- Entry `i` of an elementwise conjunction of masks. -/
theorem andMask_getD (a b : List Bool) (i : Nat) (ha : i < a.length) (hb : i < b.length) :
    (andMask a b).getD i false = (a.getD i false && b.getD i false) := by
  have hl : i < (andMask a b).length := by
    simp only [andMask, List.length_zipWith]; omega
  rw [List.getD_eq_getElem _ _ hl, List.getD_eq_getElem _ _ ha, List.getD_eq_getElem _ _ hb]
  simp [andMask, List.getElem_zipWith]

/-- Length of the per-column zero test. -/
theorem fast0Cols_length (tol : ℚ) (A : RMat) : (fast0Cols tol A).length = colsOf A := by
  simp [fast0Cols, transposeM]

/-- Entry `i` of the per-column zero test is the zero test of column `i`. -/
theorem fast0Cols_getD (A : RMat) (i : Nat) (h : i < colsOf A) :
    (fast0Cols tol0 A).getD i false = fast0All tol0 (colM A i) := by
  have hl : i < (fast0Cols tol0 A).length := by rw [fast0Cols_length]; exact h
  rw [List.getD_eq_getElem _ _ hl]
  simp [fast0Cols, transposeM, colM, List.getElem_map, List.getElem_range]

/-- Entry `i` of the elementwise zero test. -/
theorem fast0E_getD (v : RVec) (i : Nat) (h : i < v.length) :
    (fast0E tol0 v).getD i false = decide (qabs (v.getD i 0) < tol0) := by
  have hl : i < (fast0E tol0 v).length := by simpa [fast0E] using h
  rw [List.getD_eq_getElem _ _ hl, List.getD_eq_getElem _ _ h]
  simp [fast0E, List.getElem_map]

/-- Length of the first mask stage when all four inputs have length `n`. -/
theorem redMask0_length (N A : RMat) (b2 cx : RVec) (n : Nat)
    (hN : colsOf N = n) (hA : colsOf A = n) (hb : b2.length = n) (hc : cx.length = n) :
    (redMask0 N A b2 cx).length = n := by
  unfold redMask0
  simp only [andMask, List.length_zipWith, fast0Cols_length, fast0E, List.length_map,
    hN, hA, hb, hc]
  omega

/-- Pointwise value of the first mask stage. -/
theorem redMask0_getD (N A : RMat) (b2 cx : RVec) (n j : Nat)
    (hN : colsOf N = n) (hA : colsOf A = n) (hb : b2.length = n) (hc : cx.length = n)
    (hj : j < n) :
    (redMask0 N A b2 cx).getD j false =
      (fast0All tol0 (colM N j) && fast0All tol0 (colM A j) &&
       decide (qabs (b2.getD j 0) < tol0) && decide (qabs (cx.getD j 0) < tol0)) := by
  have l1 : (fast0Cols tol0 N).length = n := by rw [fast0Cols_length, hN]
  have l2 : (fast0Cols tol0 A).length = n := by rw [fast0Cols_length, hA]
  have l3 : (fast0E tol0 b2).length = n := by simp [fast0E, hb]
  have l4 : (fast0E tol0 cx).length = n := by simp [fast0E, hc]
  have l12 : (andMask (fast0Cols tol0 N) (fast0Cols tol0 A)).length = n := by
    simp only [andMask, List.length_zipWith, l1, l2]; omega
  have l123 : (andMask (andMask (fast0Cols tol0 N) (fast0Cols tol0 A))
      (fast0E tol0 b2)).length = n := by
    simp only [andMask, List.length_zipWith, l12, l3]; omega
  unfold redMask0
  rw [andMask_getD _ _ _ (by omega) (by omega),
      andMask_getD _ _ _ (by omega) (by omega),
      andMask_getD _ _ _ (by omega) (by omega),
      fast0Cols_getD _ _ (by omega), fast0Cols_getD _ _ (by omega),
      fast0E_getD _ _ (by omega), fast0E_getD _ _ (by omega)]

/-- Pointwise characterization of the reduction mask: position `i` is true
iff column `i` of `N`, column `i` of `A`, entry `i` of `b2` and entry `i` of
`cx` are numerically zero, and additionally, on the last `dv` positions
(the observable-variable block), column `i - (n - dv)` of `ZZ` is
numerically zero. -/
theorem reductionMask_getD (N A : RMat) (b2 cx : RVec) (ZZ : RMat) (dv n i : Nat)
    (hN : colsOf N = n) (hA : colsOf A = n) (hb : b2.length = n) (hc : cx.length = n)
    (hZ : colsOf ZZ = dv) (hdv : dv ≤ n) (hi : i < n) :
    (reductionMask N A b2 cx ZZ dv).getD i false =
      (fast0All tol0 (colM N i) && fast0All tol0 (colM A i) &&
       decide (qabs (b2.getD i 0) < tol0) && decide (qabs (cx.getD i 0) < tol0) &&
       (if n - dv ≤ i then fast0All tol0 (colM ZZ (i - (n - dv))) else true)) := by
  have lm : (redMask0 N A b2 cx).length = n := redMask0_length N A b2 cx n hN hA hb hc
  have lz : (fast0Cols tol0 ZZ).length = dv := by rw [fast0Cols_length, hZ]
  have ltake : ((redMask0 N A b2 cx).take ((redMask0 N A b2 cx).length - dv)).length
      = n - dv := by
    simp [List.length_take]; omega
  unfold reductionMask
  by_cases hcase : i < n - dv
  · have ht : i < ((redMask0 N A b2 cx).take ((redMask0 N A b2 cx).length - dv)).length := by
      omega
    have happ : i < ((redMask0 N A b2 cx).take ((redMask0 N A b2 cx).length - dv) ++
        andMask (lastSlice (redMask0 N A b2 cx) dv) (fast0Cols tol0 ZZ)).length := by
      rw [List.length_append]; omega
    rw [List.getD_eq_getElem _ _ happ, List.getElem_append_left ht, List.getElem_take,
        ← List.getD_eq_getElem (redMask0 N A b2 cx) false (by omega),
        redMask0_getD N A b2 cx n i hN hA hb hc hi,
        if_neg (by omega : ¬ (n - dv ≤ i))]
    simp
  · have hge : n - dv ≤ i := by omega
    have hdvpos : 0 < dv := by omega
    have hls : lastSlice (redMask0 N A b2 cx) dv = (redMask0 N A b2 cx).drop (n - dv) := by
      unfold lastSlice; rw [if_neg (by omega : ¬ dv = 0), lm]
    have llast : (lastSlice (redMask0 N A b2 cx) dv).length = dv := by
      rw [hls, List.length_drop]; omega
    have lA : (andMask (lastSlice (redMask0 N A b2 cx) dv) (fast0Cols tol0 ZZ)).length
        = dv := by
      simp only [andMask, List.length_zipWith, llast, lz]; omega
    have happ : i < ((redMask0 N A b2 cx).take ((redMask0 N A b2 cx).length - dv) ++
        andMask (lastSlice (redMask0 N A b2 cx) dv) (fast0Cols tol0 ZZ)).length := by
      rw [List.length_append, ltake, lA]; omega
    rw [List.getD_eq_getElem _ _ happ, List.getElem_append_right (by omega)]
    simp only [ltake]
    rw [← List.getD_eq_getElem _ false (by omega : i - (n - dv) <
        (andMask (lastSlice (redMask0 N A b2 cx) dv) (fast0Cols tol0 ZZ)).length),
      andMask_getD _ _ _ (by omega) (by omega), hls]
    have hdrop : ((redMask0 N A b2 cx).drop (n - dv)).getD (i - (n - dv)) false
        = (redMask0 N A b2 cx).getD i false := by
      have hjj : i - (n - dv) < ((redMask0 N A b2 cx).drop (n - dv)).length := by
        rw [List.length_drop]; omega
      rw [List.getD_eq_getElem _ _ hjj, List.getElem_drop,
          ← List.getD_eq_getElem (redMask0 N A b2 cx) false (by omega)]
      congr 1; omega
    rw [hdrop, redMask0_getD N A b2 cx n i hN hA hb hc hi,
        fast0Cols_getD _ _ (by omega), if_pos hge]

/-- Stage 1 records the model's variable names and their count. -/
theorem stage1_ok_inv (m : StaticModel) (par ppar : RVec) (s1 : Stage1Out)
    (h : stage1 m par ppar = .ok s1) :
    s1.vv_v = m.varNames ∧ s1.dim_v = m.varNames.length := by
  unfold stage1 at h
  cases hc : m.const_var with
  | none => rw [hc] at h; simp at h
  | some cv =>
    rw [hc] at h
    simp only [] at h
    split at h
    · injection h with h'
      rw [← h']
      exact ⟨rfl, rfl⟩
    · simp at h

/-- Stage 2 passes the stage-1 data through unchanged. -/
theorem stage2_ok_inv (o : Oracles) (tol : ℚ) (s1 : Stage1Out) (s2 : Stage2Out)
    (h : stage2 o tol s1 = .ok s2) : s2.s1 = s1 := by
  unfold stage2 at h
  cases hbk : o.re_bk s1.M1 s1.P1 s1.dim_x with
  | error e => rw [hbk] at h; simp at h
  | ok OME =>
    rw [hbk] at h
    rcases hsvd : o.svd s1.P1 with ⟨U, sv, V⟩
    rw [hsvd] at h
    simp only [] at h
    split at h
    · simp at h
    · injection h with h'
      rw [← h']

/-- Full characterization of a successful stage 3: the resolved `x_bar`
and its diagnostic, `cx = inv(P2) @ c2 * x_bar`, the inactive and active
transition matrices, and the reduction mask. -/
theorem stage3_ok_char (m : StaticModel) (o : Oracles) (par ppar : RVec)
    (s : Stage2Out) (Pi : RMat) (h : o.inv s.P2 = .ok Pi) :
    stage3 m o par ppar s = ((resolveXbar m par).2, .ok
      { s2 := s, x_bar := (resolveXbar m par).1
        cx := scaleV (resolveXbar m par).1 (matvec Pi s.c2)
        N := matmul Pi s.N2
        A := matmul Pi (addM s.N2 (outerM s.c2 s.s1.b2))
        out_msk := reductionMask (matmul Pi s.N2)
          (matmul Pi (addM s.N2 (outerM s.c2 s.s1.b2))) s.s1.b2
          (scaleV (resolveXbar m par).1 (matvec Pi s.c2)) (m.ZZ ppar) s.s1.dim_v }) := by
  unfold stage3
  rw [h]

/-- A successful computational core satisfies: its mask is the reduction
mask of its own transition matrices and vectors, its stage-1 data records
the model's variables, and its `x_bar` and diagnostics come from the
resolution chain. -/
theorem computeCore_ok_inv (m : StaticModel) (o : Oracles) (tol : ℚ) (par ppar : RVec)
    (d : List String) (r : CoreOut)
    (h : computeCore m o tol par ppar = (d, .ok r)) :
    r.out_msk = reductionMask r.N r.A r.s2.s1.b2 r.cx (m.ZZ ppar) r.s2.s1.dim_v
    ∧ r.s2.s1.dim_v = m.varNames.length
    ∧ r.s2.s1.vv_v = m.varNames
    ∧ r.x_bar = (resolveXbar m par).1
    ∧ d = (resolveXbar m par).2 := by
  unfold computeCore at h
  cases h1 : stage1 m par ppar with
  | error e => rw [h1] at h; simp at h
  | ok s1 =>
    rw [h1] at h
    dsimp only [] at h
    cases h2 : stage2 o tol s1 with
    | error e => rw [h2] at h; simp at h
    | ok s2 =>
      rw [h2] at h
      dsimp only [] at h
      cases h3 : o.inv s2.P2 with
      | error e =>
        unfold stage3 at h
        rcases hrx : resolveXbar m par with ⟨xb, dd⟩
        rw [hrx, h3] at h
        cases e <;> simp at h
      | ok Pi =>
        rw [stage3_ok_char m o par ppar s2 Pi h3] at h
        have hd := (Prod.mk.injEq _ _ _ _).mp h
        have hr := hd.2
        injection hr with hr'
        have hs1 := stage1_ok_inv m par ppar s1 h1
        have hs2 := stage2_ok_inv o tol s1 s2 h2
        rw [← hr']
        refine ⟨rfl, ?_, ?_, rfl, hd.1.symm⟩
        · simp only [hs2, hs1.2]
        · simp only [hs2, hs1.1]

/-- Fields of the state returned by `get_sys` that are set unconditionally
(before any possible failure) or never touched: the static model, the new
parameter vectors, the effective `fdict` entries and solver depths, and the
attached filter. -/
theorem get_sys_state_inv (a : GSArgs) (o : Oracles) (st : DSGEState) :
    ((get_sys a o st).1).m = st.m
    ∧ ((get_sys a o st).1).par = some (effPar a st)
    ∧ ((get_sys a o st).1).ppar = some (st.m.pcompile (effPar a st))
    ∧ ((get_sys a o st).1).fdictReduceSys = effReduce a st
    ∧ ((get_sys a o st).1).fdictIgnoreTests = effIgnore a st
    ∧ ((get_sys a o st).1).lks = some (effLks a st).1
    ∧ ((get_sys a o st).1).filter = st.filter := by
  simp only [get_sys]
  cases hcc : computeCore st.m o a.tol (effPar a st) (st.m.pcompile (effPar a st)) with
  | mk dd res =>
    cases res with
    | error e => simp
    | ok r =>
      dsimp only []
      repeat' split
      all_goals simp

/-- When the computational core fails, `get_sys` raises its error and the
emitted-system fields of the object are left untouched. -/
theorem get_sys_err_inv (a : GSArgs) (o : Oracles) (st : DSGEState) (d : List String)
    (e : PyErr)
    (hcc : computeCore st.m o a.tol (effPar a st) (st.m.pcompile (effPar a st))
      = (d, .error e)) :
    (get_sys a o st).2 = some e
    ∧ ((get_sys a o st).1).sys = st.sys
    ∧ ((get_sys a o st).1).out_msk = st.out_msk
    ∧ ((get_sys a o st).1).Pcache = st.Pcache := by
  simp only [get_sys]
  rw [hcc]
  simp

/-- When the computational core succeeds, `get_sys` caches the
observable-block slice of the new mask and emits the system pruned by the
(possibly `reduce_sys`-gated) mask. -/
theorem get_sys_ok_inv (a : GSArgs) (o : Oracles) (st : DSGEState) (d : List String)
    (r : CoreOut)
    (hcc : computeCore st.m o a.tol (effPar a st) (st.m.pcompile (effPar a st))
      = (d, .ok r)) :
    ((get_sys a o st).1).out_msk = some (lastSlice r.out_msk st.m.varNames.length)
    ∧ ((get_sys a o st).1).sys = some (pruneSys r
        (if truthy (effReduce a st) then r.out_msk
         else setLastFalse r.out_msk st.m.varNames.length))
    ∧ ((get_sys a o st).1).SIG = some (maskSelRows
        (notMask (lastSlice (if truthy (effReduce a st) then r.out_msk
          else setLastFalse r.out_msk st.m.varNames.length) st.m.varNames.length))
        (matmul (transposeM r.s2.s1.BB) r.s2.s1.D)) := by
  simp only [get_sys]
  rw [hcc]
  dsimp only []
  repeat' split
  all_goals simp

/-- A successful `get_sys` run has a successful computational core. -/
theorem get_sys_ok_core (a : GSArgs) (o : Oracles) (st : DSGEState)
    (h : (get_sys a o st).2 = none) :
    ∃ d r, computeCore st.m o a.tol (effPar a st) (st.m.pcompile (effPar a st))
      = (d, .ok r) := by
  cases hcc : computeCore st.m o a.tol (effPar a st) (st.m.pcompile (effPar a st)) with
  | mk dd res =>
    cases res with
    | error e =>
      exfalso
      have := (get_sys_err_inv a o st dd e hcc).1
      rw [this] at h
      exact Option.noConfusion h
    | ok r => exact ⟨dd, r, rfl⟩

/-- The line-144 check condition expressed on the stage-1 data and the SVD
oracle output: the two derived projections of the eliminated constraint
column onto the zero-singular-value block. -/
def stage2Check (o : Oracles) (tol : ℚ) (s : Stage1Out) : Bool :=
  futureDependence ((o.svd s.P1).2.1.map (fun x => decide (x < tol)))
    (matvec (transposeM (o.svd s.P1).1) s.c1) (transposeM (o.svd s.P1).1) s.c_P

/-- When the Klein solve succeeds but the future-dependence check fires,
stage 2 raises the descriptive non-recoverable error. -/
theorem stage2_err_of_check (o : Oracles) (tol : ℚ) (s : Stage1Out)
    (hOME : ∃ OME, o.re_bk s.M1 s.P1 s.dim_x = .ok OME)
    (h : stage2Check o tol s = true) :
    stage2 o tol s = .error (.notImplementedError futureMsg) := by
  obtain ⟨OME, h2⟩ := hOME
  unfold stage2
  rw [h2]
  unfold stage2Check at h
  rcases hsvd : o.svd s.P1 with ⟨U, sv, V⟩
  rw [hsvd] at h
  dsimp only [] at h ⊢
  rw [if_pos h]

/-- C1: For every run of `get_sys` in which, after the SVD-based
desingularization, the eliminated constraint variable's future value still
enters the zero-singular-value block (the projection of `c2` onto the
near-zero singular-value rows, or the projection `U.T[s0] @ c_P`, is
numerically nonzero), compilation fails by raising a descriptive,
non-recoverable error and does not emit a system. -/
theorem C1_future_dependence_aborts (a : GSArgs) (o : Oracles) (st : DSGEState)
    (s1 : Stage1Out)
    (h1 : stage1 st.m (effPar a st) (st.m.pcompile (effPar a st)) = .ok s1)
    (h2 : ∃ OME, o.re_bk s1.M1 s1.P1 s1.dim_x = .ok OME)
    (hF : stage2Check o a.tol s1 = true) :
    (get_sys a o st).2 = some (.notImplementedError futureMsg)
    ∧ ((get_sys a o st).1).sys = st.sys := by
  have hcc : computeCore st.m o a.tol (effPar a st) (st.m.pcompile (effPar a st))
      = ([], .error (.notImplementedError futureMsg)) := by
    unfold computeCore
    rw [h1]
    dsimp only []
    rw [stage2_err_of_check o a.tol s1 h2 hF]
  have h := get_sys_err_inv a o st [] (.notImplementedError futureMsg) hcc
  exact ⟨h.1, h.2.1⟩

/-- Stage-1 data of the minimal model `cm` at the calibration. -/
def c1s1 : Stage1Out :=
  { vv_v := ["r", "y"], dim_v := 2
    AA := [[1, 0], [0, 0]], BB := [[1, 0], [0, 1]], CC := [[0, 0], [0, 1/2]]
    bbv := [0, 0, 0, 0], D := [[0], [0]]
    in_x := [true, false], vv_x2 := ["r"], A1 := [[1], [0]], b1 := [0, 0, 0]
    N := [[0, 0, 0], [0, 0, 1/2], [1, 0, 0]], P := [[-1, -1, 0], [0, 0, -1], [0, 1, 0]]
    c_arg := 0, c1 := [0, 0, 1], c_P := [-1, 0, 0], b2 := [0, 0]
    N1 := [[0, 0], [0, 1/2], [0, 0]], P1 := [[-1, 0], [0, -1], [1, 0]]
    vv_x3 := [], dim_x := 0, M1 := [[0, 0], [0, 1/2], [0, 0]] }

/-- Witness for C1: under the oracle `cOraclesC1` the second singular value
of `P1` is below tolerance and its left singular vector loads on the
constraint column, so `get_sys` aborts with the descriptive error and the
model object keeps no emitted system. -/
theorem C1_witness :
    stage1 cm [0] [0] = .ok c1s1
    ∧ stage2Check cOraclesC1 tol0 c1s1 = true
    ∧ (get_sys GSArgs.default cOraclesC1 (initState cm)).2
        = some (.notImplementedError futureMsg)
    ∧ ((get_sys GSArgs.default cOraclesC1 (initState cm)).1).sys = none := by
  have h := C1_future_dependence_aborts GSArgs.default cOraclesC1 (initState cm) c1s1
    (by decide) ⟨[], by decide⟩ (by decide)
  exact ⟨by decide, by decide, h.1, h.2⟩

/-- C4: The constraint bound `x_bar` is resolved with the exact precedence
structural parameter -> declared functional parameter -> default `-1` with a
textual warning, and the constraint's steady displacement is then
`cx = inv(P2) @ c2 * x_bar`. -/
theorem C4_xbar_resolution (m : StaticModel) (par : RVec) :
    ("x_bar" ∈ m.parameters →
      resolveXbar m par = (par.getD (m.parameters.indexOf "x_bar") 0, []))
    ∧ ("x_bar" ∉ m.parameters → "x_bar" ∈ m.parafuncNames →
      resolveXbar m par = ((m.parafuncFun par).getD (m.parafuncNames.indexOf "x_bar") 0, []))
    ∧ ("x_bar" ∉ m.parameters → "x_bar" ∉ m.parafuncNames →
      resolveXbar m par = (-1, [xbarWarning]))
    ∧ (∀ (o : Oracles) (ppar : RVec) (s : Stage2Out) (Pi : RMat),
        o.inv s.P2 = .ok Pi →
        (stage3 m o par ppar s).1 = (resolveXbar m par).2
        ∧ (stage3 m o par ppar s).2.toOption.map (fun r => (r.x_bar, r.cx))
            = some ((resolveXbar m par).1,
                scaleV (resolveXbar m par).1 (matvec Pi s.c2))) := by
  refine ⟨?_, ?_, ?_, ?_⟩
  · intro h; unfold resolveXbar; rw [if_pos h]
  · intro h1 h2; unfold resolveXbar; rw [if_neg h1, if_pos h2]
  · intro h1 h2; unfold resolveXbar; rw [if_neg h1, if_neg h2]
  · intro o ppar s Pi hinv
    rw [stage3_ok_char m o par ppar s Pi hinv]
    exact ⟨rfl, rfl⟩

/-- Stage-2 data of the minimal model `cm` under the oracle `cOracles`. -/
def c4s2 : Stage2Out :=
  { s1 := c1s1, OME := [], J := [], U := [[1, 0], [0, 1], [0, 0]], sv := [1, 1]
    s0 := [false, false], P2 := [[-1, 0], [0, -1]], N2 := [[0, 0], [0, 1/2]]
    c2 := [0, 0] }

/-- Witness for C4: in the minimal model `x_bar` is a structural parameter
(value 0 in the calibration), no warning is printed, and stage 3 computes
`cx` as the inverse of `P2` applied to `c2`, scaled by `x_bar`. -/
theorem C4_witness :
    ("x_bar" ∈ cm.parameters ∧ resolveXbar cm [0] = (0, []))
    ∧ ratInv c4s2.P2 = .ok [[-1, 0], [0, -1]]
    ∧ (stage3 cm cOracles [0] [0] c4s2).1 = []
    ∧ (stage3 cm cOracles [0] [0] c4s2).2.toOption.map (fun r => (r.x_bar, r.cx))
        = some (0, [0, 0]) := by
  have h := C4_xbar_resolution cm [0]
  have hm : "x_bar" ∈ cm.parameters := by decide
  have hinv : cOracles.inv c4s2.P2 = .ok [[-1, 0], [0, -1]] := by decide
  have h4 := h.2.2.2 cOracles [0] c4s2 [[-1, 0], [0, -1]] hinv
  refine ⟨⟨hm, (h.1 hm).trans (by decide)⟩, by decide, ?_, ?_⟩
  · rw [h4.1]; decide
  · rw [h4.2]; decide

/-- C3 (bug evidence): growing a cached 1-by-1 state-transition matrix to
the new 2-variable size replaces it with the all-zeros matrix — the
re-embedding assignment of line 187 writes into a temporary copy produced
by chained boolean indexing, so the old matrix is lost; only a diagnostic
could be printed and no exception is raised.  Shrinking (the other branch)
correctly sub-selects the surviving rows and columns. -/
theorem C3_pcache_growth_is_zeroed :
    ((get_sys GSArgs.default cOracles { initState cm with Pcache := some [[5]] }).1).Pcache
      = some [[0, 0], [0, 0]]
    ∧ (get_sys GSArgs.default cOracles { initState cm with Pcache := some [[5]] }).2 = none
    ∧ ((get_sys GSArgs.default cOracles { initState cm with Pcache := some [[5]] }).1).diag = []
    ∧ maskSelCols (notMask [true, false])
        (maskSelRows (notMask [true, false]) [[(0 : ℚ), 0], [0, 0]]) = [[0]]
    ∧ [[(0 : ℚ)]] ≠ [[5]]
    ∧ ((get_sys { GSArgs.default with reduce_sys := some true } cOracles
        { initState cm with Pcache := some [[1, 2], [3, 4]] }).1).Pcache = some [[4]]
    ∧ (get_sys { GSArgs.default with reduce_sys := some true } cOracles
        { initState cm with Pcache := some [[1, 2], [3, 4]] }).2 = none := by
  decide

/-- After `mask[-dv:] = False`, every entry of the observable-block slice is
false: the gating leaves no observable-block variable marked for pruning. -/
theorem setLastFalse_obs_all_false (m : List Bool) (dv : Nat) :
    (lastSlice (setLastFalse m dv) dv).all (fun b => !b) = true := by
  by_cases h0 : dv = 0
  · subst h0
    unfold setLastFalse lastSlice
    simp
  · unfold setLastFalse lastSlice
    rw [if_neg h0, if_neg h0]
    by_cases hle : dv ≤ m.length
    · have hlen : (m.take (m.length - dv) ++
          List.replicate (m.length - (m.length - dv)) false).length = m.length := by
        simp only [List.length_append, List.length_take, List.length_replicate]
        omega
      rw [hlen]
      have htl : (m.take (m.length - dv)).length = m.length - dv := by
        simp only [List.length_take]; omega
      rw [List.drop_append_of_le_length (by omega : m.length - dv ≤ (m.take (m.length - dv)).length),
          List.drop_eq_nil_of_le (by omega : (m.take (m.length - dv)).length ≤ m.length - dv)]
      simp [List.all_eq_true]
    · have h1 : m.length - dv = 0 := by omega
      rw [h1]
      simp [List.all_eq_true]

/-- C2 (amended): position `i` of the reduction mask is true iff column `i`
of `N`, column `i` of `A`, entry `i` of `b2` and entry `i` of `cx` are all
numerically zero and — on the observable-variable block — the corresponding
column of `ZZ` is zero; the observable-block slice of this mask is cached on
the model object; with `reduce_sys` disabled the emitted system is pruned by
the gated mask, whose observable block is entirely false (so no
observable-block variable is pruned), while positions outside the
observable block are pruned according to the mask regardless of
`reduce_sys`; with `reduce_sys` enabled the full mask prunes. -/
theorem C2_reduction_mask (a : GSArgs) (o : Oracles) (st : DSGEState)
    (d : List String) (r : CoreOut)
    (hcc : computeCore st.m o a.tol (effPar a st) (st.m.pcompile (effPar a st))
      = (d, .ok r)) :
    (∀ i, i < r.out_msk.length →
      colsOf r.N = r.out_msk.length → colsOf r.A = r.out_msk.length →
      r.s2.s1.b2.length = r.out_msk.length → r.cx.length = r.out_msk.length →
      colsOf (st.m.ZZ (st.m.pcompile (effPar a st))) = st.m.varNames.length →
      st.m.varNames.length ≤ r.out_msk.length →
      r.out_msk.getD i false =
        (fast0All tol0 (colM r.N i) && fast0All tol0 (colM r.A i) &&
         decide (qabs (r.s2.s1.b2.getD i 0) < tol0) &&
         decide (qabs (r.cx.getD i 0) < tol0) &&
         (if r.out_msk.length - st.m.varNames.length ≤ i then
            fast0All tol0 (colM (st.m.ZZ (st.m.pcompile (effPar a st)))
              (i - (r.out_msk.length - st.m.varNames.length)))
          else true)))
    ∧ ((get_sys a o st).1).out_msk = some (lastSlice r.out_msk st.m.varNames.length)
    ∧ (effReduce a st ≠ some true →
        ((get_sys a o st).1).sys
          = some (pruneSys r (setLastFalse r.out_msk st.m.varNames.length))
        ∧ (lastSlice (setLastFalse r.out_msk st.m.varNames.length)
            st.m.varNames.length).all (fun b => !b) = true)
    ∧ (effReduce a st = some true →
        ((get_sys a o st).1).sys = some (pruneSys r r.out_msk)) := by
  obtain ⟨hmask, hdv, -, -, -⟩ :=
    computeCore_ok_inv st.m o a.tol (effPar a st) (st.m.pcompile (effPar a st)) d r hcc
  have hinv := get_sys_ok_inv a o st d r hcc
  refine ⟨?_, hinv.1, ?_, ?_⟩
  · intro i hi h1 h2 h3 h4 h5 h6
    rw [hdv] at hmask
    conv_lhs => rw [hmask]
    exact reductionMask_getD r.N r.A r.s2.s1.b2 r.cx
      (st.m.ZZ (st.m.pcompile (effPar a st))) st.m.varNames.length
      r.out_msk.length i h1 h2 h3 h4 h5 h6 hi
  · intro hne
    have hfalse : truthy (effReduce a st) = false := by
      cases he : effReduce a st with
      | none => rfl
      | some b =>
        cases b with
        | true => exact absurd he hne
        | false => rfl
    have hsys := hinv.2.1
    rw [hfalse] at hsys
    refine ⟨by simpa using hsys, setLastFalse_obs_all_false r.out_msk st.m.varNames.length⟩
  · intro he
    have htrue : truthy (effReduce a st) = true := by rw [he]; rfl
    have hsys := hinv.2.1
    rw [htrue] at hsys
    simpa using hsys

/-- Arguments requesting an unreduced system (`reduce_sys=False`). -/
def rsOffArgs : GSArgs := { GSArgs.default with reduce_sys := some false }

/-- Stage-1 data of the model `cm2` at the calibration. -/
def c2s1 : Stage1Out :=
  { vv_v := ["a", "b"], dim_v := 2
    AA := [[1, 1], [0, 0]], BB := [[1, 0], [0, 1]], CC := [[1/2, 0], [0, 1/2]]
    bbv := [0, 0, 0, 0], D := [[0], [0]]
    in_x := [true, true], vv_x2 := ["a", "b"], A1 := [[1, 1], [0, 0]], b1 := [0, 0, 0, 0]
    N := [[0, 0, 1/2, 0], [0, 0, 0, 1/2], [1, 0, 0, 0], [0, 1, 0, 0]]
    P := [[-1, -1, -1, 0], [0, 0, 0, -1], [0, 0, 1, 0], [0, 0, 0, 1]]
    c_arg := 0, c1 := [0, 0, 1, 0], c_P := [-1, 0, 0, 0], b2 := [0, 0, 0]
    N1 := [[0, 1/2, 0], [0, 0, 1/2], [0, 0, 0], [1, 0, 0]]
    P1 := [[-1, -1, 0], [0, 0, -1], [0, 1, 0], [0, 0, 1]]
    vv_x3 := ["b"], dim_x := 1, M1 := [[0, 1/2, 0], [0, 0, 1/2], [0, 0, 0], [1, 0, 0]] }

/-- Stage-2 data of the model `cm2` under the oracle `cOracles2`. -/
def c2s2 : Stage2Out :=
  { s1 := c2s1, OME := [[0, 0]], J := [[1, 0, 0]]
    U := [[0, 1, 0], [0, 0, 1], [1, 0, 0], [0, 0, 0]], sv := [2, 1, 1]
    s0 := [false, false, false]
    P2 := [[0, 1, 0], [-1, -1, 0], [0, 0, -1]]
    N2 := [[0, 0, 0], [0, 1/2, 0], [0, 0, 1/2]], c2 := [1, 0, 0] }

/-- Core result of compiling `cm2` under `cOracles2`: the first position of
the reduction mask (a non-observable, forward-looking column) is true. -/
def c2core : CoreOut :=
  { s2 := c2s2, x_bar := 0, cx := [0, 0, 0]
    N := [[0, -1/2, 0], [0, 0, 0], [0, 0, -1/2]]
    A := [[0, -1/2, 0], [0, 0, 0], [0, 0, -1/2]]
    out_msk := [true, false, false] }

/-- Witness for C2 (amended): on the concrete model `cm2` the mask position
of the surviving forward-looking column satisfies the pointwise
characterization, the observable-block slice `[false, false]` is cached,
and with `reduce_sys` disabled the emitted system is pruned by the gated
mask whose observable block is all false. -/
theorem C2_witness :
    computeCore cm2 cOracles2 tol0 (effPar rsOffArgs (initState cm2))
        (cm2.pcompile (effPar rsOffArgs (initState cm2))) = ([], .ok c2core)
    ∧ c2core.out_msk.getD 0 false =
        (fast0All tol0 (colM c2core.N 0) && fast0All tol0 (colM c2core.A 0) &&
         decide (qabs (c2core.s2.s1.b2.getD 0 0) < tol0) &&
         decide (qabs (c2core.cx.getD 0 0) < tol0) &&
         (if c2core.out_msk.length - cm2.varNames.length ≤ 0 then
            fast0All tol0 (colM (cm2.ZZ (cm2.pcompile (effPar rsOffArgs (initState cm2))))
              (0 - (c2core.out_msk.length - cm2.varNames.length)))
          else true))
    ∧ ((get_sys rsOffArgs cOracles2 (initState cm2)).1).out_msk
        = some (lastSlice c2core.out_msk cm2.varNames.length)
    ∧ ((get_sys rsOffArgs cOracles2 (initState cm2)).1).sys
        = some (pruneSys c2core (setLastFalse c2core.out_msk cm2.varNames.length))
    ∧ (lastSlice (setLastFalse c2core.out_msk cm2.varNames.length)
        cm2.varNames.length).all (fun b => !b) = true := by
  have h := C2_reduction_mask rsOffArgs cOracles2 (initState cm2) [] c2core (by decide)
  have h3 := h.2.2.1 (by decide)
  exact ⟨by decide,
    h.1 0 (by decide) (by decide) (by decide) (by decide) (by decide) (by decide) (by decide),
    h.2.1, h3.1, h3.2⟩

/-- Counterexample for C2 as stated: with `reduce_sys` disabled the
compilation of `cm2` succeeds, the extended variable set has 3 positions,
yet the emitted transition matrix `N2` is 2-by-2 — the masked
forward-looking variable was pruned from the emitted system even though
`reduce_sys` is off, contradicting "with reduce_sys disabled, no variable
is pruned from the emitted system". -/
theorem C2_counterexample :
    (get_sys rsOffArgs cOracles2 (initState cm2)).2 = none
    ∧ rsOffArgs.reduce_sys = some false
    ∧ ((computeCore cm2 cOracles2 tol0 [0] [0]).2.toOption.map
        (fun r => r.out_msk.length)) = some 3
    ∧ ((get_sys rsOffArgs cOracles2 (initState cm2)).1).sys
        = some ⟨[[0, 0], [0, -1/2]], [[0, 0], [0, -1/2]], [[0, 0]], [0, 0], [0, 0], 0⟩
    ∧ (((get_sys rsOffArgs cOracles2 (initState cm2)).1).sys.map
        (fun s => rowsOf s.N2)) = some 2
    ∧ 2 < 3 := by
  decide

/-- The `reduce_sys`-gated pruning mask used for the emitted system
(lines 176-179). -/
def gatedMask (a : GSArgs) (st : DSGEState) (r : CoreOut) : List Bool :=
  if truthy (effReduce a st) then r.out_msk
  else setLastFalse r.out_msk st.m.varNames.length

/-- Outcome of the stability self-test of lines 215-220 on a successful
core: `none`, or the explosive-dynamics error. -/
def stabilityOutcome (a : GSArgs) (o : Oracles) (st : DSGEState) (r : CoreOut) :
    Option PyErr :=
  if truthy (effIgnore a st) then none
  else
    let tObj := o.preprocessO (pruneSys r (gatedMask a st r))
      (effLks a st).1.1 (effLks a st).1.2
    if ((o.eig (lastSlice tObj (colsOf tObj))).filter (fun x => 1 < x)).length ≠ 0
    then some (.valueError "Explosive dynamics detected: EV(s) > 1") else none

/-- On a successful core, the raised error of `get_sys` is exactly the
stability-test outcome. -/
theorem get_sys_ok_snd (a : GSArgs) (o : Oracles) (st : DSGEState) (d : List String)
    (r : CoreOut)
    (hcc : computeCore st.m o a.tol (effPar a st) (st.m.pcompile (effPar a st))
      = (d, .ok r)) :
    (get_sys a o st).2 = stabilityOutcome a o st r := by
  simp only [get_sys]
  rw [hcc]
  dsimp only []
  unfold stabilityOutcome gatedMask
  repeat' split
  all_goals simp_all

/-- The stability outcome only depends on the state through its static
model, the effective `reduce_sys` / `ignore_tests` flags, and the effective
solver depths. -/
theorem stabilityOutcome_congr (a : GSArgs) (o : Oracles) (st st' : DSGEState)
    (r : CoreOut) (hm : st'.m = st.m) (hrs : effReduce a st' = effReduce a st)
    (hig : effIgnore a st' = effIgnore a st)
    (hlk : (effLks a st').1 = (effLks a st).1) :
    stabilityOutcome a o st' r = stabilityOutcome a o st r := by
  unfold stabilityOutcome gatedMask
  rw [hm, hrs, hig, hlk]

/-- C7: Two consecutive calls to `get_sys` on the same model object with
identical arguments (parameter vector, `reduce_sys`, `l_max`, `k_max`)
succeed together and produce identical emitted system tuples and identical
cached reduction masks. -/
theorem C7_determinism (a : GSArgs) (o : Oracles) (st : DSGEState)
    (h : (get_sys a o st).2 = none) :
    (get_sys a o (get_sys a o st).1).2 = none
    ∧ ((get_sys a o (get_sys a o st).1).1).sys = ((get_sys a o st).1).sys
    ∧ ((get_sys a o (get_sys a o st).1).1).out_msk = ((get_sys a o st).1).out_msk := by
  obtain ⟨d, r, hcc⟩ := get_sys_ok_core a o st h
  have hstate := get_sys_state_inv a o st
  set st1 := (get_sys a o st).1 with hst1
  have hm : st1.m = st.m := hstate.1
  have hpar : effPar a st1 = effPar a st := by
    unfold effPar
    cases a.par with
    | some p => rfl
    | none => rw [hm]
  have hrs : effReduce a st1 = effReduce a st := by
    unfold effReduce
    cases hp : a.reduce_sys with
    | some b => rfl
    | none =>
      have h1 : st1.fdictReduceSys = effReduce a st := hstate.2.2.2.1
      rw [h1]
      unfold effReduce
      rw [hp]
  have hig : effIgnore a st1 = effIgnore a st := by
    unfold effIgnore
    cases hp : a.ignore_tests with
    | some b => rfl
    | none =>
      have h1 : st1.fdictIgnoreTests = effIgnore a st := hstate.2.2.2.2.1
      rw [h1]
      unfold effIgnore
      rw [hp]
  have hlks : st1.lks = some (effLks a st).1 := hstate.2.2.2.2.2.1
  have hL : (effL a st1).1 = (effL a st).1 := by
    unfold effL
    cases hl : a.l_max with
    | some l => rfl
    | none =>
      rw [hlks]
      unfold effLks
      dsimp only []
      unfold effL
      rw [hl]
  have hK : effK a st1 = effK a st := by
    unfold effK
    cases hk : a.k_max with
    | some k => rfl
    | none =>
      rw [hlks]
      unfold effLks
      dsimp only []
      unfold effK
      rw [hk]
  have hlk : (effLks a st1).1 = (effLks a st).1 := by
    unfold effLks
    rw [hL, hK]
  have hcc1 : computeCore st1.m o a.tol (effPar a st1) (st1.m.pcompile (effPar a st1))
      = (d, .ok r) := by
    rw [hm, hpar]
    exact hcc
  refine ⟨?_, ?_, ?_⟩
  · rw [get_sys_ok_snd a o st1 d r hcc1,
        stabilityOutcome_congr a o st st1 r hm hrs hig hlk,
        ← get_sys_ok_snd a o st d r hcc]
    exact h
  · rw [(get_sys_ok_inv a o st1 d r hcc1).2.1, (get_sys_ok_inv a o st d r hcc).2.1,
        hrs, hm]
  · rw [(get_sys_ok_inv a o st1 d r hcc1).1, (get_sys_ok_inv a o st d r hcc).1, hm]

/-- Witness for C7: the minimal model compiles, and a second identical call
on the resulting object succeeds with the same emitted system and mask. -/
theorem C7_witness :
    (get_sys GSArgs.default cOracles (initState cm)).2 = none
    ∧ ((get_sys GSArgs.default cOracles
        ((get_sys GSArgs.default cOracles (initState cm)).1)).2 = none
      ∧ ((get_sys GSArgs.default cOracles
          ((get_sys GSArgs.default cOracles (initState cm)).1)).1).sys
          = ((get_sys GSArgs.default cOracles (initState cm)).1).sys
      ∧ ((get_sys GSArgs.default cOracles
          ((get_sys GSArgs.default cOracles (initState cm)).1)).1).out_msk
          = ((get_sys GSArgs.default cOracles (initState cm)).1).out_msk) :=
  ⟨by decide, C7_determinism GSArgs.default cOracles (initState cm) (by decide)⟩

/-- The closed set of recognized parameter-set tokens of the final dispatch
branch of `get_par` (lines 449-494). -/
def parSetTokens : List String :=
  ["prior", "post", "posterior", "posterior_mean", "post_mean", "mode",
   "mcmc_mode", "mode_mcmc", "posterior_mode", "post_mode", "calib",
   "prior_mean", "adj_prior_mean", "init"]

/-- An unrecognized token reaches the final else branch: the previous
parameter vector is restored and a `KeyError` is raised. -/
theorem getParTokenElse_unknown (s : String) (o : Oracles) (st : DSGEState) (ns : Nat)
    (h : s ∉ parSetTokens) :
    getParTokenElse (.str s) o st ns =
      (st, .error (.keyError ("Parameter or parametrization " ++ s ++ " does not exist."))) := by
  have hs : ¬s = "prior" ∧ ¬s = "post" ∧ ¬s = "posterior" ∧ ¬s = "posterior_mean" ∧
      ¬s = "post_mean" ∧ ¬s = "mode" ∧ ¬s = "mcmc_mode" ∧ ¬s = "mode_mcmc" ∧
      ¬s = "posterior_mode" ∧ ¬s = "post_mode" ∧ ¬s = "calib" ∧ ¬s = "prior_mean" ∧
      ¬s = "adj_prior_mean" ∧ ¬s = "init" := by
    simpa [parSetTokens, not_or] using h
  obtain ⟨h1, h2, h3, h4, h5, h6, h7, h8, h9, h10, h11, h12, h13, h14⟩ := hs
  unfold getParTokenElse
  simp [GDummy.str.injEq, GDummy.reprStr, h1, h2, h3, h4, h5, h6, h7, h8, h9, h10,
    h11, h12, h13, h14]

/-- A string that is no parameter name, no functional-parameter name and no
recognized token makes `get_par` raise the lookup `KeyError`, with the
previous current-parameter vector restored on the model object. -/
theorem get_par_unknown_token (o : Oracles) (st : DSGEState) (p : RVec) (s : String)
    (a : GPArgs) (hd : a.dummy = .str s) (hp : st.par = some p)
    (h1 : s ∉ st.m.parameters) (h2 : s ∉ st.m.parafuncNames)
    (h3 : s ∉ parSetTokens) (h4 : s ≠ "cov_mat") (h5 : s ≠ "best") :
    get_par a o st =
      (st, .error (.keyError ("Parameter or parametrization " ++ s ++ " does not exist."))) := by
  unfold get_par
  rw [hp]
  dsimp only []
  unfold getParBody
  rw [hd]
  dsimp only []
  rw [if_neg h1, if_neg h2, if_neg h4, if_neg h5,
      getParTokenElse_unknown s o st a.nsamples h3]

/-- C8: an unrecognized parameter-set token raises a fatal `KeyError` from
`get_par`; `set_par` with a `setpar` value raises a fatal `SyntaxError` when
the name is a functional (derived) parameter or is not defined for the
model; in each case the error is returned to the immediate caller. -/
theorem C8_lookup_errors :
    (∀ (o : Oracles) (st : DSGEState) (p : RVec) (s : String) (a : GPArgs),
      a.dummy = .str s → st.par = some p →
      s ∉ st.m.parameters → s ∉ st.m.parafuncNames → s ∉ parSetTokens →
      s ≠ "cov_mat" → s ≠ "best" →
      (get_par a o st).2 = .error (.keyError
        ("Parameter or parametrization " ++ s ++ " does not exist.")))
    ∧ (∀ (o : Oracles) (st : DSGEState) (s : String) (sp : ℚ) (np : Option RVec)
        (gs : GSArgs),
        s ∉ st.m.parameters → s ∈ st.m.parafuncNames →
        set_par ⟨.str s, some sp, np, gs⟩ o st = (st, .error (.syntaxError
          ("Can not set parameter " ++ s ++ " that is a function of other parameters."))))
    ∧ (∀ (o : Oracles) (st : DSGEState) (s : String) (sp : ℚ) (np : Option RVec)
        (gs : GSArgs),
        s ∉ st.m.parameters → s ∉ st.m.parafuncNames →
        set_par ⟨.str s, some sp, np, gs⟩ o st = (st, .error (.syntaxError
          ("Parameter " ++ s ++ " is not defined for this model.")))) := by
  refine ⟨?_, ?_, ?_⟩
  · intro o st p s a hd hp h1 h2 h3 h4 h5
    rw [get_par_unknown_token o st p s a hd hp h1 h2 h3 h4 h5]
  · intro o st s sp np gs h1 h2
    unfold set_par spResolve
    dsimp only []
    rw [if_neg h1, if_pos h2]
  · intro o st s sp np gs h1 h2
    unfold set_par spResolve
    dsimp only []
    rw [if_neg h1, if_neg h2]

/-- Model state with current parameters attached, used as a concrete
starting point for the accessor witnesses. -/
def cmState : DSGEState := { initState cm with par := some [0] }

/-- Variant of the minimal model declaring one functional parameter. -/
def cmf : StaticModel :=
  { cm with parafuncNames := ["pfd"], parafuncFun := fun _ => [1] }

/-- Witness for C8 at concrete inputs: an unknown token, a functional
parameter and an undefined parameter. -/
theorem C8_witness :
    (get_par { GPArgs.default with dummy := .str "nonsense" } cOracles cmState).2
      = .error (.keyError ("Parameter or parametrization nonsense does not exist."))
    ∧ set_par ⟨.str "pfd", some 3, none, GSArgs.default⟩ cOracles
        { initState cmf with par := some [0] }
      = ({ initState cmf with par := some [0] }, .error (.syntaxError
        ("Can not set parameter pfd that is a function of other parameters.")))
    ∧ set_par ⟨.str "nosuch", some 3, none, GSArgs.default⟩ cOracles cmState
      = (cmState, .error (.syntaxError
        ("Parameter nosuch is not defined for this model."))) := by
  refine ⟨?_, ?_, ?_⟩
  · exact C8_lookup_errors.1 cOracles cmState [0] "nonsense" _ rfl rfl
      (by decide) (by decide) (by decide) (by decide) (by decide)
  · exact C8_lookup_errors.2.1 cOracles _ "pfd" 3 none GSArgs.default
      (by decide) (by decide)
  · exact C8_lookup_errors.2.2 cOracles cmState "nosuch" 3 none GSArgs.default
      (by decide) (by decide)

/-- C9: on the unknown-token path `get_par` temporarily overwrites the
stored parameter vector with the fixed calibration but restores the
previous vector before raising, so the failed lookup leaves the current
parameters unchanged. -/
theorem C9_get_par_lookup_atomic (o : Oracles) (st : DSGEState) (p : RVec) (s : String)
    (a : GPArgs) (hd : a.dummy = .str s) (hp : st.par = some p)
    (h1 : s ∉ st.m.parameters) (h2 : s ∉ st.m.parafuncNames)
    (h3 : s ∉ parSetTokens) (h4 : s ≠ "cov_mat") (h5 : s ≠ "best") :
    ((get_par a o st).1).par = some p
    ∧ (get_par a o st).2 = .error (.keyError
        ("Parameter or parametrization " ++ s ++ " does not exist.")) := by
  rw [get_par_unknown_token o st p s a hd hp h1 h2 h3 h4 h5]
  exact ⟨hp, rfl⟩

/-- Witness for C9 at a concrete unknown token. -/
theorem C9_witness :
    ((get_par { GPArgs.default with dummy := .str "nonsense2" } cOracles cmState).1).par
      = some [0]
    ∧ (get_par { GPArgs.default with dummy := .str "nonsense2" } cOracles cmState).2
      = .error (.keyError ("Parameter or parametrization nonsense2 does not exist.")) :=
  C9_get_par_lookup_atomic cOracles cmState [0] "nonsense2" _ rfl rfl
    (by decide) (by decide) (by decide) (by decide) (by decide)

/-- Writing position `i` of a list then reading it back gives the written
value (in range). -/
theorem getD_set_self (v : RVec) (i : Nat) (x : ℚ) (h : i < v.length) :
    (v.set i x).getD i 0 = x := by
  rw [List.getD_eq_getElem _ _ (by rw [List.length_set]; exact h)]
  exact List.getElem_set_self _

/-- Writing position `i` of a list leaves every other position unchanged. -/
theorem getD_set_ne (v : RVec) (i j : Nat) (x : ℚ) (hne : j ≠ i) :
    (v.set i x).getD j 0 = v.getD j 0 := by
  by_cases hj : j < v.length
  · rw [List.getD_eq_getElem _ _ (by rw [List.length_set]; exact hj),
        List.getD_eq_getElem _ _ hj]
    exact List.getElem_set_ne (fun hh => hne hh.symm) _
  · rw [List.getD_eq_default _ _ (by rw [List.length_set]; omega),
        List.getD_eq_default _ _ (by omega)]

/-- C10: `set_par` with a structural-parameter name, a `setpar` value and an
explicit `npar` vector returns the altered copy of `npar` with only the
named entry changed — the index resolved against the estimated subset when
`npar` has estimated-subset length and against the full parameter list
otherwise — and returns before any recompilation: the model state
(including `self.par` and `self.sys`) is unchanged. -/
theorem C10_npar_early_return (o : Oracles) (st : DSGEState) (s : String) (sp : ℚ)
    (nv : RVec) (gs : GSArgs) (idx : Nat)
    (hidx : idx = if nv.length = st.m.prior_arg.length
      then st.m.prior_names.indexOf s else st.m.parameters.indexOf s)
    (hmem : s ∈ st.m.parameters)
    (hcase : (nv.length = st.m.prior_arg.length ∧ s ∈ st.m.prior_names
        ∧ st.m.prior_names.indexOf s < nv.length)
      ∨ (nv.length ≠ st.m.prior_arg.length ∧ st.m.parameters.indexOf s < nv.length)) :
    set_par ⟨.str s, some sp, some nv, gs⟩ o st = (st, .ok (.nparOut (nv.set idx sp)))
    ∧ (nv.set idx sp).length = nv.length
    ∧ idx < nv.length
    ∧ (nv.set idx sp).getD idx 0 = sp
    ∧ (∀ j, j ≠ idx → (nv.set idx sp).getD j 0 = nv.getD j 0) := by
  have hlt : idx < nv.length := by
    rcases hcase with ⟨h1, _, h3⟩ | ⟨h1, h2⟩
    · rw [hidx, if_pos h1]; exact h3
    · rw [hidx, if_neg h1]; exact h2
  refine ⟨?_, List.length_set nv idx sp, hlt, getD_set_self nv idx sp hlt,
    fun j hj => getD_set_ne nv idx j sp hj⟩
  unfold set_par spResolve
  dsimp only []
  rw [if_pos hmem]
  rcases hcase with ⟨h1, h2, h3⟩ | ⟨h1, h2⟩
  · rw [if_pos h1, if_pos h2, if_pos h3]
    rw [hidx, if_pos h1]
  · rw [if_neg h1, if_pos h2]
    rw [hidx, if_neg h1]

/-- Witness for C10 at concrete inputs: `npar` of estimated-subset length. -/
theorem C10_witness :
    set_par ⟨.str "x_bar", some 3, some [9], GSArgs.default⟩ cOracles cmState
      = (cmState, .ok (.nparOut ([9].set 0 3)))
    ∧ ([9] : RVec).set 0 3 = [3]
    ∧ (([9] : RVec).set 0 3).getD 0 0 = 3
    ∧ (∀ j, j ≠ 0 → (([9] : RVec).set 0 3).getD j 0 = ([9] : RVec).getD j 0) := by
  have h := C10_npar_early_return cOracles cmState "x_bar" 3 [9] GSArgs.default 0
    (by decide) (by decide) (Or.inl ⟨by decide, by decide, by decide⟩)
  exact ⟨h.1, by decide, h.2.2.2.1, h.2.2.2.2⟩

/-- Resolution case: a full-length parameter vector is used as is
(line 557-558). -/
theorem spResolve_vec_full (a : SPArgs) (o : Oracles) (st : DSGEState) (v : RVec)
    (hsp : a.setpar = none) (hd : a.dummy = .vec v)
    (hlen : v.length = st.m.par_fix.length) :
    spResolve a o st = (st, .ok (.inl v)) := by
  unfold spResolve
  rw [hsp, hd]
  dsimp only []
  rw [if_pos hlen]

/-- Resolution case: an estimated-subset vector overwrites the prior
entries of the current vector (lines 559-560). -/
theorem spResolve_vec_subset (a : SPArgs) (o : Oracles) (st : DSGEState) (v : RVec)
    (hsp : a.setpar = none) (hd : a.dummy = .vec v)
    (hne : ¬v.length = st.m.par_fix.length)
    (hpl : v.length = st.m.prior_arg.length) :
    spResolve a o st =
      (st, .ok (.inl (setIdxs (st.par.getD st.m.par_fix) st.m.prior_arg v))) := by
  unfold spResolve
  rw [hsp, hd]
  dsimp only []
  rw [if_neg hne, if_pos hpl]

/-- Resolution case: a named structural parameter with a value and no
`npar` overwrites the named entry of the current vector (line 572). -/
theorem spResolve_name (a : SPArgs) (o : Oracles) (st : DSGEState) (s : String) (sp : ℚ)
    (hd : a.dummy = .str s) (hsp : a.setpar = some sp) (hnp : a.npar = none)
    (hmem : s ∈ st.m.parameters)
    (hlt : st.m.parameters.indexOf s < (st.par.getD st.m.par_fix).length) :
    spResolve a o st = (st, .ok (.inl
      ((st.par.getD st.m.par_fix).set (st.m.parameters.indexOf s) sp))) := by
  unfold spResolve
  rw [hsp, hd]
  dsimp only []
  rw [if_pos hmem, hnp]
  dsimp only []
  rw [if_pos hlt]

/-- The filter update step leaves the parameter vectors, the static model
and the emitted system untouched. -/
theorem spFilterUpdate_inv (st1 : DSGEState) :
    ((spFilterUpdate st1).1).par = st1.par ∧ ((spFilterUpdate st1).1).m = st1.m
    ∧ ((spFilterUpdate st1).1).sys = st1.sys := by
  unfold spFilterUpdate
  repeat' split
  all_goals simp

/-- For a Kalman filter, the update sets `eps_cov` to the recompiled shock
covariance and `Q = CO @ CO.T` with `CO = SIG @ eps_cov` (lines 585-589). -/
theorem spFilterUpdate_kalman (st1 : DSGEState) (f : FilterObj)
    (h : st1.filter = some f) (hk : f.name = "KalmanFilter") :
    spFilterUpdate st1 = ({ st1 with filter := some ⟨f.name,
      st1.m.QQ (st1.ppar.getD []),
      matmul (matmul (st1.SIG.getD []) (st1.m.QQ (st1.ppar.getD [])))
        (transposeM (matmul (st1.SIG.getD []) (st1.m.QQ (st1.ppar.getD []))))⟩ }, none) := by
  unfold spFilterUpdate
  rw [h]
  dsimp only []
  rw [if_pos hk]

/-- The returned state of the tail assembly of `get_par` is always the
input state. -/
theorem getParTail_fst (a : GPArgs) (o : Oracles) (st : DSGEState) (dummy : GDummy)
    (pars : RVec) (cand : RVec ⊕ List RVec) :
    (getParTail a o st dummy pars cand).1 = st := by
  unfold getParTail
  dsimp only []
  repeat' split
  all_goals rfl

/-- The named-parameter-set branch only touches the current parameter
vector: the emitted system, the filter and the static model pass through. -/
theorem getParTokenElse_preserves (d : GDummy) (o : Oracles) (st : DSGEState) (ns : Nat) :
    ((getParTokenElse d o st ns).1).sys = st.sys
    ∧ ((getParTokenElse d o st ns).1).filter = st.filter
    ∧ ((getParTokenElse d o st ns).1).m = st.m := by
  unfold getParTokenElse
  dsimp only []
  by_cases h1 : d = GDummy.str "prior"
  · rw [if_pos h1]; exact ⟨rfl, rfl, rfl⟩
  rw [if_neg h1]
  by_cases h2 : d = GDummy.str "post" ∨ d = GDummy.str "posterior"
  · rw [if_pos h2]; exact ⟨rfl, rfl, rfl⟩
  rw [if_neg h2]
  by_cases h3 : d = GDummy.str "posterior_mean" ∨ d = GDummy.str "post_mean"
  · rw [if_pos h3]; exact ⟨rfl, rfl, rfl⟩
  rw [if_neg h3]
  by_cases h4 : d = GDummy.str "mode"
  · rw [if_pos h4]; cases st.m.fdict_mode_x <;> exact ⟨rfl, rfl, rfl⟩
  rw [if_neg h4]
  by_cases h5 : d = GDummy.str "mcmc_mode" ∨ d = GDummy.str "mode_mcmc" ∨
    d = GDummy.str "posterior_mode" ∨ d = GDummy.str "post_mode"
  · rw [if_pos h5]; cases st.m.fdict_mcmc_mode_x <;> exact ⟨rfl, rfl, rfl⟩
  rw [if_neg h5]
  by_cases h6 : d = GDummy.str "calib"
  · rw [if_pos h6]; exact ⟨rfl, rfl, rfl⟩
  rw [if_neg h6]
  by_cases h7 : d = GDummy.str "prior_mean"
  · rw [if_pos h7]; exact ⟨rfl, rfl, rfl⟩
  rw [if_neg h7]
  by_cases h8 : d = GDummy.str "adj_prior_mean"
  · rw [if_pos h8]; exact ⟨rfl, rfl, rfl⟩
  rw [if_neg h8]
  by_cases h9 : d = GDummy.str "init"
  · rw [if_pos h9]; cases st.m.fdict_init_value <;> exact ⟨rfl, rfl, rfl⟩
  rw [if_neg h9]
  exact ⟨rfl, rfl, rfl⟩

/-- The `best` fallback chain only touches the current parameter vector. -/
theorem getParBest_preserves (o : Oracles) (st : DSGEState) :
    ((getParBest o st).1).sys = st.sys ∧ ((getParBest o st).1).filter = st.filter := by
  unfold getParBest
  rcases h1 : getParTokenElse (.str "mode") o st 1 with ⟨s1, r1⟩
  have hp1 := getParTokenElse_preserves (.str "mode") o st 1
  rw [h1] at hp1
  rcases r1 with e1 | v1
  · dsimp only []
    rcases h2 : getParTokenElse (.str "init") o s1 1 with ⟨s2, r2⟩
    have hp2 := getParTokenElse_preserves (.str "init") o s1 1
    rw [h2] at hp2
    rcases r2 with e2 | v2
    · dsimp only []
      exact ⟨hp2.1.trans hp1.1, hp2.2.1.trans hp1.2.1⟩
    · rcases v2 with v2 | v2 <;> dsimp only [] <;>
        exact ⟨hp2.1.trans hp1.1, hp2.2.1.trans hp1.2.1⟩
  · rcases v1 with v1 | v1 <;> dsimp only [] <;> exact ⟨hp1.1, hp1.2.1⟩

/-- A `get_par` call with default arguments on an object with current
parameters leaves the emitted system and the filter untouched. -/
theorem get_par_default_preserves (o : Oracles) (st : DSGEState) (p : RVec)
    (hp : st.par = some p) :
    ((get_par GPArgs.default o st).1).sys = st.sys
    ∧ ((get_par GPArgs.default o st).1).filter = st.filter := by
  unfold get_par
  rw [hp]
  dsimp only []
  unfold getParBody
  dsimp only [GPArgs.default]
  split
  · rw [getParTail_fst]
    exact ⟨rfl, rfl⟩
  · rcases hb : getParBest o st with ⟨sb, rb⟩
    have hpb := getParBest_preserves o st
    rw [hb] at hpb
    rcases rb with e | c
    · exact hpb
    · rw [getParTail_fst]
      exact hpb

/-- A `get_par` call with default arguments on an object with current
parameters whose estimated-subset indices are in range returns the current
vector with its prior entries re-assigned, without touching the state. -/
theorem get_par_default_vec (o : Oracles) (st : DSGEState) (p : RVec)
    (hp : st.par = some p)
    (hn : st.m.prior_arg.all (fun i => i < p.length) = true) :
    get_par GPArgs.default o st =
      (st, .ok (.vec (setIdxs p st.m.prior_arg (selIdxs p st.m.prior_arg)))) := by
  unfold get_par
  rw [hp]
  dsimp only []
  unfold getParBody
  rw [hp]
  dsimp only [GPArgs.default]
  rw [Option.getD_some]
  rw [if_pos hn]
  unfold getParTail
  rfl

/-- Indexed re-assignment of a vector's own entries is the identity when
all indices are in range. -/
theorem setIdxs_selIdxs (v : RVec) (idxs : List Nat) (h : ∀ i ∈ idxs, i < v.length) :
    setIdxs v idxs (selIdxs v idxs) = v := by
  induction idxs generalizing v with
  | nil => rfl
  | cons i is ih =>
    have hv : v.set i (v.getD i 0) = v := by
      apply List.ext_getElem
      · rw [List.length_set]
      · intro j hj hj2
        by_cases hij : j = i
        · subst hij
          rw [List.getElem_set_self, List.getD_eq_getElem _ _ (h j (by simp))]
        · rw [List.getElem_set_ne (fun hh => hij hh.symm)]
    unfold setIdxs selIdxs
    simp only [List.map_cons, List.zip_cons_cons, List.foldl_cons]
    rw [hv]
    exact ih v (fun j hj => h j (by simp [hj]))

/-- Witness state for the recompilation claim: a fresh object with a stale
Kalman filter attached. -/
def C5st : DSGEState :=
  { initState cm with filter := some ⟨"KalmanFilter", [[0]], [[0]]⟩ }

/-- C5: whenever `set_par` resolves a new full parameter vector from a
full-length vector, an estimated-subset vector, or a named structural
parameter with a value (and no explicit `npar`), `get_sys` is invoked with
the resolved vector before `set_par` returns: a failing recompilation
aborts `set_par` with that error, and on success the emitted system of the
returned object is the one the recompilation produced; moreover, when a
Kalman filter is attached, its shock covariance is recomputed as
`QQ(pcompile(par))` and its process-noise covariance as `CO @ CO.T` with
`CO = SIG @ QQ(pcompile(par))` from the newly compiled shock loading,
before `set_par` returns. -/
theorem C5_set_par_recompiles (a : SPArgs) (o : Oracles) (st : DSGEState) (parQ : RVec)
    (hres :
      (∃ v, a.setpar = none ∧ a.dummy = .vec v ∧ v.length = st.m.par_fix.length ∧ parQ = v)
      ∨ (∃ v, a.setpar = none ∧ a.dummy = .vec v ∧ ¬v.length = st.m.par_fix.length
          ∧ v.length = st.m.prior_arg.length
          ∧ parQ = setIdxs (st.par.getD st.m.par_fix) st.m.prior_arg v)
      ∨ (∃ s sp, a.dummy = .str s ∧ a.setpar = some sp ∧ a.npar = none
          ∧ s ∈ st.m.parameters
          ∧ st.m.parameters.indexOf s < (st.par.getD st.m.par_fix).length
          ∧ parQ = (st.par.getD st.m.par_fix).set (st.m.parameters.indexOf s) sp)) :
    (∀ e, (get_sys { a.gs with par := some parQ } o st).2 = some e →
      set_par a o st = ((get_sys { a.gs with par := some parQ } o st).1, .error e))
    ∧ ((get_sys { a.gs with par := some parQ } o st).2 = none →
      ((set_par a o st).1).sys = ((get_sys { a.gs with par := some parQ } o st).1).sys
      ∧ (∀ f, st.filter = some f → f.name = "KalmanFilter" →
          ((set_par a o st).1).filter = some ⟨"KalmanFilter",
            st.m.QQ (st.m.pcompile parQ),
            matmul (matmul ((((get_sys { a.gs with par := some parQ } o st).1).SIG).getD [])
                (st.m.QQ (st.m.pcompile parQ)))
              (transposeM (matmul ((((get_sys { a.gs with par := some parQ } o st).1).SIG).getD [])
                (st.m.QQ (st.m.pcompile parQ))))⟩)) := by
  have hr : spResolve a o st = (st, .ok (.inl parQ)) := by
    rcases hres with ⟨v, h1, h2, h3, h4⟩ | ⟨v, h1, h2, h3, h4, h5⟩ |
      ⟨s, sp, h1, h2, h3, h4, h5, h6⟩
    · rw [h4]; exact spResolve_vec_full a o st v h1 h2 h3
    · rw [h5]; exact spResolve_vec_subset a o st v h1 h2 h3 h4
    · rw [h6]; exact spResolve_name a o st s sp h1 h2 h3 h4 h5
  have hinv := get_sys_state_inv { a.gs with par := some parQ } o st
  have hep : effPar { a.gs with par := some parQ } st = parQ := rfl
  rw [hep] at hinv
  unfold set_par
  rw [hr]
  dsimp only []
  cases hg : get_sys { a.gs with par := some parQ } o st with
  | mk st1 r1 =>
    rw [hg] at hinv
    dsimp only [] at hinv
    constructor
    · intro e he
      dsimp only [] at he
      subst he
      rfl
    · intro hok
      dsimp only [] at hok
      subst hok
      dsimp only []
      cases hf : spFilterUpdate st1 with
      | mk st2 e2 =>
        have hfi := spFilterUpdate_inv st1
        rw [hf] at hfi
        dsimp only [] at hfi
        have hkal : ∀ f, st.filter = some f → f.name = "KalmanFilter" →
            st2 = { st1 with filter := some ⟨f.name, st1.m.QQ (st1.ppar.getD []),
              matmul (matmul (st1.SIG.getD []) (st1.m.QQ (st1.ppar.getD [])))
                (transposeM (matmul (st1.SIG.getD []) (st1.m.QQ (st1.ppar.getD []))))⟩ }
            ∧ e2 = none := by
          intro f hf0 hk
          have hkk := spFilterUpdate_kalman st1 f (by rw [hinv.2.2.2.2.2.2]; exact hf0) hk
          rw [hf] at hkk
          exact ⟨congrArg Prod.fst hkk, congrArg Prod.snd hkk⟩
        cases e2 with
        | some e =>
          dsimp only []
          refine ⟨hfi.2.2, ?_⟩
          intro f hf0 hk
          exact Option.noConfusion (hkal f hf0 hk).2
        | none =>
          dsimp only []
          have hp2 : st2.par = some parQ := by rw [hfi.1, hinv.2.1]
          have hpre := get_par_default_preserves o st2 parQ hp2
          cases hgp : get_par GPArgs.default o st2 with
          | mk st3 r3 =>
            rw [hgp] at hpre
            dsimp only [] at hpre
            have hmain : st3.sys = st1.sys := hpre.1.trans hfi.2.2
            have hfltr : ∀ f, st.filter = some f → f.name = "KalmanFilter" →
                st3.filter = some ⟨"KalmanFilter", st.m.QQ (st.m.pcompile parQ),
                  matmul (matmul (st1.SIG.getD []) (st.m.QQ (st.m.pcompile parQ)))
                    (transposeM (matmul (st1.SIG.getD [])
                      (st.m.QQ (st.m.pcompile parQ))))⟩ := by
              intro f hf0 hk
              rw [hpre.2, (hkal f hf0 hk).1]
              dsimp only []
              rw [hk, hinv.1, hinv.2.2.1, Option.getD_some]
            cases r3 with
            | error e => exact ⟨hmain, hfltr⟩
            | ok r => exact ⟨hmain, hfltr⟩

/-- Concrete run of the recompilation claim: setting the full parameter
vector `[7]` on an object with a stale Kalman filter recompiles and leaves
the recomputed shock and process-noise covariances on the filter. -/
theorem C5_witness :
    (get_sys { GSArgs.default with par := some [7] } cOracles C5st).2 = none
    ∧ ((set_par { SPArgs.default with dummy := GDummy.vec [7] } cOracles C5st).1).filter
        = some ⟨"KalmanFilter", [[1]], [[0, 0], [0, 0]]⟩ := by
  refine ⟨by decide, ?_⟩
  have h := C5_set_par_recompiles { SPArgs.default with dummy := GDummy.vec [7] }
    cOracles C5st [7] (Or.inl ⟨[7], rfl, rfl, by decide, rfl⟩)
  have h2 := (h.2 (by decide)).2 ⟨"KalmanFilter", [[0]], [[0]]⟩ rfl rfl
  rw [h2]
  decide

/-- C6: setting a full-length parameter vector whose recompilation succeeds
and then reading the parameters back with a default `get_par` call returns
a full parameter vector whose entries at the estimated-subset (prior)
indices equal the corresponding entries of the vector that was set. -/
theorem C6_roundtrip (a : SPArgs) (o : Oracles) (st : DSGEState) (v : RVec)
    (hd : a.dummy = .vec v) (hsp : a.setpar = none)
    (hlen : v.length = st.m.par_fix.length)
    (hidx : ∀ i ∈ st.m.prior_arg, i < v.length)
    (hok : (get_sys { a.gs with par := some v } o st).2 = none) :
    ∃ w, get_par GPArgs.default o ((set_par a o st).1)
        = ((set_par a o st).1, .ok (.vec w))
      ∧ ∀ i ∈ st.m.prior_arg, w.getD i 0 = v.getD i 0 := by
  have hr : spResolve a o st = (st, .ok (.inl v)) := spResolve_vec_full a o st v hsp hd hlen
  have hinv := get_sys_state_inv { a.gs with par := some v } o st
  have hep : effPar { a.gs with par := some v } st = v := rfl
  rw [hep] at hinv
  unfold set_par
  rw [hr]
  dsimp only []
  cases hg : get_sys { a.gs with par := some v } o st with
  | mk st1 r1 =>
    rw [hg] at hinv hok
    dsimp only [] at hinv hok
    subst hok
    dsimp only []
    cases hf : spFilterUpdate st1 with
    | mk st2 e2 =>
      have hfi := spFilterUpdate_inv st1
      rw [hf] at hfi
      dsimp only [] at hfi
      have hp2 : st2.par = some v := by rw [hfi.1, hinv.2.1]
      have hm2 : st2.m = st.m := by rw [hfi.2.1, hinv.1]
      have hgv := get_par_default_vec o st2 v hp2 (by
        rw [hm2]
        exact List.all_eq_true.mpr (fun i hi => decide_eq_true (hidx i hi)))
      cases e2 with
      | some e =>
        dsimp only []
        refine ⟨v, ?_, fun i hi => rfl⟩
        rw [hgv, hm2, setIdxs_selIdxs v st.m.prior_arg hidx]
      | none =>
        dsimp only []
        rw [hgv]
        dsimp only []
        refine ⟨v, ?_, fun i hi => rfl⟩
        rw [hgv, hm2, setIdxs_selIdxs v st.m.prior_arg hidx]

/-- Concrete run of the round-trip claim: setting the full vector `[7]` on
a fresh object and reading back with a default `get_par` returns a vector
agreeing with `[7]` on the estimated-subset indices. -/
theorem C6_witness :
    (get_sys { GSArgs.default with par := some [7] } cOracles (initState cm)).2 = none
    ∧ ∃ w, get_par GPArgs.default cOracles
          ((set_par { SPArgs.default with dummy := GDummy.vec [7] }
            cOracles (initState cm)).1)
        = (((set_par { SPArgs.default with dummy := GDummy.vec [7] }
            cOracles (initState cm)).1), .ok (.vec w))
      ∧ ∀ i ∈ (initState cm).m.prior_arg, w.getD i 0 = ([7] : RVec).getD i 0 :=
  ⟨by decide,
   C6_roundtrip { SPArgs.default with dummy := GDummy.vec [7] } cOracles (initState cm) [7]
     rfl rfl (by decide) (by decide) (by decide)⟩
